import Mathlib

/-!
Verification development for a ride-pooling dispatch engine
(spatial matcher, TSP-like route planner with 2-opt improvement,
dynamic pricing, and lease-based concurrency control).

The definitions below are shallow embeddings of the TypeScript sources:
  - geometry helpers        (src/algorithms/geometry.ts)     — over ℝ
  - route optimizer         (src/algorithms/route-optimizer.ts)
  - matcher                 (src/algorithms/matcher.ts)
  - pricing engine          (src/algorithms/pricing.ts)      — over ℚ
  - pool locks / service    (src/services/concurrency.ts, ride-pooling.ts)

JavaScript numbers are modelled as real numbers (ℝ) where the code uses
transcendental functions, and as rationals (ℚ) in the pricing module whose
arithmetic is plain field arithmetic.  JS `Map`s are modelled as association
lists with insertion-order iteration and in-place update, matching JS `Map`
semantics.  Timestamps are modelled as integer epoch milliseconds.
-/

set_option autoImplicit false

namespace RidePool

/-- Waypoint kind, `'pickup' | 'dropoff'` in the source. -/
inductive WaypointType where
  | pickup
  | dropoff
  deriving DecidableEq, Repr, BEq

/-- Vehicle class, `'sedan' | 'suv' | 'van'` in the source. -/
inductive VehicleType where
  | sedan
  | suv
  | van
  deriving DecidableEq, Repr, BEq

/-- Passenger lifecycle state. -/
inductive PassengerStatus where
  | pending
  | matched
  | inTransit
  | completed
  | cancelled
  deriving DecidableEq, Repr, BEq

/-- Pool lifecycle state. -/
inductive PoolStatus where
  | forming
  | matched
  | inTransit
  | completed
  deriving DecidableEq, Repr, BEq

/-- Demand tier of a surge zone. -/
inductive DemandLevel where
  | low
  | normal
  | high
  | veryHigh
  deriving DecidableEq, Repr, BEq

/-- Weather condition used by the pricing engine. -/
inductive Weather where
  | clear
  | rain
  | snow
  deriving DecidableEq, Repr, BEq

/-! ## Geometry (src/algorithms/geometry.ts), over ℝ -/

/-- A WGS84 coordinate, `interface Location` in the source. -/
structure Location where
  lat : ℝ
  lng : ℝ

/-- `toRadians(degrees) = degrees * (Math.PI / 180)`. -/
noncomputable def toRadians (degrees : ℝ) : ℝ := degrees * (Real.pi / 180)

/-- JavaScript `Math.atan2(y, x)` (signed-zero subtleties ignored). -/
noncomputable def atan2 (y x : ℝ) : ℝ :=
  if 0 < x then Real.arctan (y / x)
  else if x < 0 ∧ 0 ≤ y then Real.arctan (y / x) + Real.pi
  else if x < 0 ∧ y < 0 then Real.arctan (y / x) - Real.pi
  else if x = 0 ∧ 0 < y then Real.pi / 2
  else if x = 0 ∧ y < 0 then -(Real.pi / 2)
  else 0

/-- `haversineDistance(loc1, loc2)`: great-circle kilometres with R = 6371. -/
noncomputable def haversineDistance (loc1 loc2 : Location) : ℝ :=
  let dLat := toRadians (loc2.lat - loc1.lat)
  let dLng := toRadians (loc2.lng - loc1.lng)
  let a := Real.sin (dLat / 2) * Real.sin (dLat / 2) +
    Real.cos (toRadians loc1.lat) * Real.cos (toRadians loc2.lat) *
    (Real.sin (dLng / 2) * Real.sin (dLng / 2))
  let c := 2 * atan2 (Real.sqrt a) (Real.sqrt (1 - a))
  6371 * c

/-- `estimateTravelTime(distanceKm) = (distanceKm / 30) * 60` minutes. -/
noncomputable def estimateTravelTime (distanceKm : ℝ) : ℝ :=
  distanceKm / 30 * 60

/-- Truncation toward zero, as JavaScript division inside `%` behaves. -/
noncomputable def jsTrunc (q : ℝ) : ℤ :=
  if 0 ≤ q then ⌊q⌋ else -⌊-q⌋

/-- JavaScript remainder `a % b` (sign follows the dividend). -/
noncomputable def jsMod (a b : ℝ) : ℝ := a - b * (jsTrunc (a / b) : ℝ)

/-- `calculateBearing(loc1, loc2)`: initial bearing in degrees `[0, 360)`. -/
noncomputable def calculateBearing (loc1 loc2 : Location) : ℝ :=
  let lat1 := toRadians loc1.lat
  let lat2 := toRadians loc2.lat
  let dLng := toRadians (loc2.lng - loc1.lng)
  let y := Real.sin dLng * Real.cos lat2
  let x := Real.cos lat1 * Real.sin lat2 -
    Real.sin lat1 * Real.cos lat2 * Real.cos dLng
  jsMod (atan2 y x * (180 / Real.pi) + 360) 360

/-- `isSimilarDirection`: bearing difference of two segments is within a
threshold (degrees). -/
noncomputable def isSimilarDirection (loc1Start loc1End loc2Start loc2End : Location)
    (thresholdDegrees : ℝ) : Bool :=
  let bearing1 := calculateBearing loc1Start loc1End
  let bearing2 := calculateBearing loc2Start loc2End
  let diff := |bearing1 - bearing2|
  let diff2 := if 180 < diff then 360 - diff else diff
  !(thresholdDegrees < diff2)

/-! ### Evaluation lemmas for the geometry on concrete inputs -/

/-- `atan2 0 1 = 0`. -/
theorem atan2_zero_one : atan2 0 1 = 0 := by
  simp [atan2, Real.arctan_zero]

/-- `atan2 0 0 = 0`, as in JavaScript. -/
theorem atan2_zero_zero : atan2 0 0 = 0 := by
  simp [atan2]

/-- The haversine distance from a point to itself is zero. -/
theorem haversineDistance_self (p : Location) : haversineDistance p p = 0 := by
  simp [haversineDistance, toRadians, atan2_zero_one]

/-- The haversine distance between two identical coordinate pairs is zero. -/
theorem haversineDistance_same (a b : Location) (h1 : a.lat = b.lat)
    (h2 : a.lng = b.lng) : haversineDistance a b = 0 := by
  have : a = b := by cases a; cases b; simp_all
  rw [this, haversineDistance_self]

/-- Kilometres per degree of longitude along the equator at R = 6371. -/
noncomputable def kmPerDeg : ℝ := 6371 * (Real.pi / 180)

theorem kmPerDeg_pos : 0 < kmPerDeg := by
  have := Real.pi_pos
  unfold kmPerDeg
  positivity

theorem kmPerDeg_lt_150 : kmPerDeg < 150 := by
  have h4 := Real.pi_le_four
  unfold kmPerDeg
  nlinarith

/-- On the equator the haversine distance is exactly proportional to the
longitude difference: `6371 * (π/180) * (y - x)` km for `0 ≤ y - x < 180`. -/
theorem haversineDistance_equator (x y : ℝ) (h0 : x ≤ y) (h1 : y - x < 180) :
    haversineDistance ⟨0, x⟩ ⟨0, y⟩ = kmPerDeg * (y - x) := by
  have hπ := Real.pi_pos
  set t : ℝ := (y - x) * (Real.pi / 180) / 2 with ht
  have ht0 : 0 ≤ t := by
    have : 0 ≤ y - x := by linarith
    positivity
  have htlt : t < Real.pi / 2 := by
    rw [ht]
    have : (y - x) * (Real.pi / 180) < 180 * (Real.pi / 180) := by
      apply mul_lt_mul_of_pos_right h1
      positivity
    linarith
  have hsin : 0 ≤ Real.sin t :=
    Real.sin_nonneg_of_nonneg_of_le_pi ht0 (by linarith)
  have hcos : 0 < Real.cos t :=
    Real.cos_pos_of_mem_Ioo ⟨by linarith, htlt⟩
  have hcossq : 1 - Real.sin t * Real.sin t = Real.cos t * Real.cos t := by
    have := Real.sin_sq_add_cos_sq t
    nlinarith
  have hsqrt_sin : Real.sqrt (Real.sin t * Real.sin t) = Real.sin t :=
    Real.sqrt_mul_self hsin
  have hsqrt_cos : Real.sqrt (1 - Real.sin t * Real.sin t) = Real.cos t := by
    rw [hcossq]
    exact Real.sqrt_mul_self (le_of_lt hcos)
  have hatan : atan2 (Real.sin t) (Real.cos t) = t := by
    rw [atan2, if_pos hcos, ← Real.tan_eq_sin_div_cos,
      Real.arctan_tan (by linarith) htlt]
  show 6371 * (2 * atan2 _ _) = _
  have hdLat : toRadians ((Location.mk 0 y).lat - (Location.mk 0 x).lat) = 0 := by
    simp [toRadians]
  have harg : toRadians ((Location.mk 0 y).lng - (Location.mk 0 x).lng) / 2 = t := by
    simp only [toRadians, ht]
  rw [hdLat]
  simp only [harg, Real.sin_zero, Real.cos_zero, zero_div, mul_zero, zero_mul,
    zero_add, one_mul, toRadians]
  rw [← ht, hsqrt_sin, hsqrt_cos, hatan]
  unfold kmPerDeg
  rw [ht]
  ring

/-- The haversine distance is symmetric in its two arguments. -/
theorem haversineDistance_symm (a b : Location) :
    haversineDistance a b = haversineDistance b a := by
  unfold haversineDistance
  have h1 : ∀ u v : ℝ, toRadians (u - v) = -(toRadians (v - u)) := by
    intro u v
    simp only [toRadians]
    ring
  rw [h1 b.lat a.lat, h1 b.lng a.lng]
  simp only [neg_div, Real.sin_neg, neg_mul_neg]
  ring_nf

/-! ## Pricing engine (src/algorithms/pricing.ts), over ℚ

The pricing module uses only field arithmetic, `min`, `max` and comparisons,
so it is embedded over the rationals, keeping every definition executable.
`Math.round(x * 100) / 100` (2-decimal output rounding, halves toward +∞)
is modelled by `jsRound2`. -/

/-- JavaScript `Math.round(x * 100) / 100`: round to 2 decimals, halves up. -/
def jsRound2 (x : ℚ) : ℚ := (⌊x * 100 + 1/2⌋ : ℚ) / 100

/-- Surge zone row (`interface SurgeZone`), pricing-relevant fields. -/
structure SurgeZone where
  id : String
  zone_name : String
  center_lat : ℚ
  center_lng : ℚ
  radius_km : ℚ
  current_surge : ℚ
  demand_level : DemandLevel
  active_requests : ℚ
  available_drivers : ℚ
  deriving Repr

/-- `interface PricingFactors`. -/
structure PricingFactors where
  distance : ℚ
  estimatedTime : ℚ
  vehicleType : VehicleType
  timeOfDay : ℤ
  dayOfWeek : ℤ
  weatherCondition : Option Weather
  surgeZone : Option SurgeZone
  poolSize : Option ℚ
  detourMinutes : Option ℚ

/-- Per-km base rate by vehicle class (`PRICING_CONFIG.BASE_RATE_PER_KM`). -/
def BASE_RATE_PER_KM : VehicleType → ℚ
  | .sedan => 2.50
  | .suv => 3.50
  | .van => 4.50

/-- Per-minute rate by vehicle class (`PRICING_CONFIG.TIME_RATE_PER_MIN`). -/
def TIME_RATE_PER_MIN : VehicleType → ℚ
  | .sedan => 0.40
  | .suv => 0.55
  | .van => 0.70

/-- Minimum fare by vehicle class (`PRICING_CONFIG.MINIMUM_FARE`). -/
def MINIMUM_FARE : VehicleType → ℚ
  | .sedan => 8.00
  | .suv => 12.00
  | .van => 15.00

/-- Weather surge factor (`PRICING_CONFIG.SURGE.WEATHER_MULTIPLIER`). -/
def WEATHER_MULTIPLIER : Weather → ℚ
  | .clear => 1.0
  | .rain => 1.2
  | .snow => 1.5

/-- `calculateBasePrice(distance, time, vehicleType)`. -/
def calculateBasePrice (distance time : ℚ) (vehicleType : VehicleType) : ℚ :=
  let distanceCharge := distance * BASE_RATE_PER_KM vehicleType
  let timeCharge := time * TIME_RATE_PER_MIN vehicleType
  max (distanceCharge + timeCharge) (MINIMUM_FARE vehicleType)

/-- `isPeakHour(hour, dayOfWeek)`: weekday 07–10 or 17–20. -/
def isPeakHour (hour dayOfWeek : ℤ) : Bool :=
  if dayOfWeek = 0 ∨ dayOfWeek = 6 then false
  else if 7 ≤ hour ∧ hour < 10 then true
  else if 17 ≤ hour ∧ hour < 20 then true
  else false

/-- `calculateSurgeMultiplier(factors)`: demand surge, zone surge, peak-hour
and weather factors, clamped to `[1.0, 3.5]`. -/
def calculateSurgeMultiplier (factors : PricingFactors) : ℚ :=
  let surge : ℚ := 1.0
  let surge :=
    match factors.surgeZone with
    | none => surge
    | some zone =>
      let demandSupplyRatio := zone.active_requests / max zone.available_drivers 1
      let surge :=
        if 1.5 < demandSupplyRatio then
          surge + min ((demandSupplyRatio - 1.5) * 0.5) 1.5
        else surge
      max surge zone.current_surge
  let surge := if isPeakHour factors.timeOfDay factors.dayOfWeek then surge * 1.3 else surge
  let surge :=
    match factors.weatherCondition with
    | none => surge
    | some w => surge * WEATHER_MULTIPLIER w
  let surge := min surge 3.5
  max surge 1.0

/-- The detour penalty inside `calculatePoolDiscount`: the JavaScript guard
`detourMinutes && detourMinutes > 0` contributes `0.02 · detourMinutes` only
for a present, strictly positive detour. -/
def detourPenaltyOf : Option ℚ → ℚ
  | none => 0
  | some d => if 0 < d then 0.02 * d else 0

/-- `calculatePoolDiscount(poolSize?, detourMinutes?)`.  The JavaScript guard
`!poolSize || poolSize <= 1` is truthy for `undefined`, `0`, and any value
`≤ 1`. -/
def calculatePoolDiscount : Option ℚ → Option ℚ → ℚ
  | none, _ => 1.0
  | some p, detourMinutes =>
    if p = 0 ∨ p ≤ 1 then 1.0
    else
      let baseDiscount := 0.15 * (p - 1)
      let detourPenalty := detourPenaltyOf detourMinutes
      let netDiscount := baseDiscount - detourPenalty
      let discountMultiplier := 1 - max netDiscount 0
      max discountMultiplier 0.50

/-- Price breakdown of `calculateDynamicPrice` (2-decimal rounded output). -/
structure PriceBreakdown where
  distanceCharge : ℚ
  timeCharge : ℚ
  baseAmount : ℚ
  surgeAmount : ℚ
  poolSavings : ℚ
  totalAmount : ℚ
  deriving Repr, DecidableEq

/-- Result of `calculateDynamicPrice` (2-decimal rounded output fields). -/
structure PricingResult where
  basePrice : ℚ
  surgeMultiplier : ℚ
  poolDiscount : ℚ
  finalPrice : ℚ
  breakdown : PriceBreakdown
  deriving Repr, DecidableEq

/-- `calculateDynamicPrice(factors)`: base · surge · discount, with every
output field rounded to 2 decimals as in the source. -/
def calculateDynamicPrice (factors : PricingFactors) : PricingResult :=
  let basePrice := calculateBasePrice factors.distance factors.estimatedTime factors.vehicleType
  let surgeMultiplier := calculateSurgeMultiplier factors
  let poolDiscount := calculatePoolDiscount factors.poolSize factors.detourMinutes
  let priceAfterSurge := basePrice * surgeMultiplier
  let finalPrice := priceAfterSurge * poolDiscount
  let distanceCharge := factors.distance * BASE_RATE_PER_KM factors.vehicleType
  let timeCharge := factors.estimatedTime * TIME_RATE_PER_MIN factors.vehicleType
  let surgeAmount := priceAfterSurge - basePrice
  let poolSavings := priceAfterSurge - finalPrice
  { basePrice := jsRound2 basePrice
    surgeMultiplier := jsRound2 surgeMultiplier
    poolDiscount := jsRound2 poolDiscount
    finalPrice := jsRound2 finalPrice
    breakdown :=
      { distanceCharge := jsRound2 distanceCharge
        timeCharge := jsRound2 timeCharge
        baseAmount := jsRound2 basePrice
        surgeAmount := jsRound2 surgeAmount
        poolSavings := jsRound2 poolSavings
        totalAmount := jsRound2 finalPrice } }

/-- `updateSurgeZone(activeRequests, availableDrivers, currentSurge)`:
piecewise raw surge, exponential smoothing with α = 0.3, clamping to
`[1.0, 3.5]`, and 2-decimal rounding of the returned multiplier. -/
def updateSurgeZone (activeRequests availableDrivers currentSurge : ℚ) :
    ℚ × DemandLevel :=
  let demandSupplyRatio := activeRequests / max availableDrivers 1
  let rawLevel : ℚ × DemandLevel :=
    if demandSupplyRatio < 0.5 then (1.0, .low)
    else if demandSupplyRatio < 1.5 then (1.0, .normal)
    else if demandSupplyRatio < 3.0 then (1.0 + (demandSupplyRatio - 1.5) * 0.4, .high)
    else (1.6 + (demandSupplyRatio - 3.0) * 0.3, .veryHigh)
  let newSurge := 0.3 * rawLevel.1 + (1 - 0.3) * currentSurge
  let newSurge := min newSurge 3.5
  let newSurge := max newSurge 1.0
  (jsRound2 newSurge, rawLevel.2)

/-! ### Pricing properties -/

/-- The pool discount multiplier always lies in `[1/2, 1]`. -/
theorem calculatePoolDiscount_bounds (poolSize detourMinutes : Option ℚ) :
    1/2 ≤ calculatePoolDiscount poolSize detourMinutes ∧
      calculatePoolDiscount poolSize detourMinutes ≤ 1 := by
  cases poolSize with
  | none => simp only [calculatePoolDiscount]; norm_num
  | some p =>
    simp only [calculatePoolDiscount]
    by_cases hp : p = 0 ∨ p ≤ 1
    · rw [if_pos hp]; norm_num
    · rw [if_neg hp]
      constructor
      · calc (1/2 : ℚ) = 0.50 := by norm_num
          _ ≤ _ := le_max_right _ _
      · apply max_le
        · have : (0 : ℚ) ≤
              max (0.15 * (p - 1) - detourPenaltyOf detourMinutes) 0 :=
            le_max_right _ _
          linarith
        · norm_num

/-- The minimum fare of every vehicle class is positive. -/
theorem MINIMUM_FARE_pos (v : VehicleType) : 0 < MINIMUM_FARE v := by
  cases v <;> norm_num [MINIMUM_FARE]

/-- The computed base price is at least the minimum fare, hence positive. -/
theorem calculateBasePrice_pos (distance time : ℚ) (v : VehicleType) :
    0 < calculateBasePrice distance time v :=
  lt_of_lt_of_le (MINIMUM_FARE_pos v) (le_max_right _ _)

/-- The computed surge multiplier is always in `[1.0, 3.5]`. -/
theorem calculateSurgeMultiplier_bounds (factors : PricingFactors) :
    1 ≤ calculateSurgeMultiplier factors ∧ calculateSurgeMultiplier factors ≤ 3.5 := by
  simp only [calculateSurgeMultiplier]
  constructor
  · calc (1 : ℚ) = 1.0 := by norm_num
      _ ≤ _ := le_max_right _ _
  · apply max_le
    · exact min_le_right _ _
    · norm_num

/-- C6.  The pool discount multiplier equals
`max (1 − max (0.15·(p−1) − 0.02·max(d,0)) 0) 0.50`, equals `1.0` for
`p ≤ 1`, and consequently the computed final price
`base · surge · discount` satisfies
`0.5 · base · surge ≤ final ≤ base · surge` for every pricing input.
(The returned record additionally rounds each field to 2 decimals for
output, per `jsRound2`.) -/
theorem poolDiscount_formula_and_price_bounds :
    (∀ p d : ℚ, calculatePoolDiscount (some p) (some d) =
      max (1 - max (0.15 * (p - 1) - 0.02 * max d 0) 0) 0.50) ∧
    (∀ (p : ℚ) (d : Option ℚ), p ≤ 1 → calculatePoolDiscount (some p) d = 1.0) ∧
    (∀ factors : PricingFactors,
      0.5 * (calculateBasePrice factors.distance factors.estimatedTime factors.vehicleType *
          calculateSurgeMultiplier factors) ≤
        calculateBasePrice factors.distance factors.estimatedTime factors.vehicleType *
          calculateSurgeMultiplier factors *
          calculatePoolDiscount factors.poolSize factors.detourMinutes ∧
      calculateBasePrice factors.distance factors.estimatedTime factors.vehicleType *
          calculateSurgeMultiplier factors *
          calculatePoolDiscount factors.poolSize factors.detourMinutes ≤
        calculateBasePrice factors.distance factors.estimatedTime factors.vehicleType *
          calculateSurgeMultiplier factors) := by
  refine ⟨?_, ?_, ?_⟩
  · intro p d
    simp only [calculatePoolDiscount]
    by_cases hp : p = 0 ∨ p ≤ 1
    · rw [if_pos hp]
      have hple : p ≤ 1 := by
        rcases hp with h | h
        · rw [h]; norm_num
        · exact h
      have hraw : 0.15 * (p - 1) - 0.02 * max d 0 ≤ 0 := by
        have h1 : 0.15 * (p - 1) ≤ 0 := by nlinarith
        have h2 : (0 : ℚ) ≤ max d 0 := le_max_right _ _
        nlinarith
      rw [max_eq_right hraw]
      norm_num
    · rw [if_neg hp]
      have hpen : detourPenaltyOf (some d) = 0.02 * max d 0 := by
        simp only [detourPenaltyOf]
        by_cases hd : 0 < d
        · rw [if_pos hd, max_eq_left (le_of_lt hd)]
        · push_neg at hd
          rw [if_neg (not_lt.mpr hd), max_eq_right hd]
          norm_num
      rw [hpen]
  · intro p d hple
    simp only [calculatePoolDiscount]
    rw [if_pos (Or.inr hple)]
  · intro factors
    have hB := calculateBasePrice_pos factors.distance factors.estimatedTime factors.vehicleType
    have hS := calculateSurgeMultiplier_bounds factors
    have hD := calculatePoolDiscount_bounds factors.poolSize factors.detourMinutes
    have hBS : 0 < calculateBasePrice factors.distance factors.estimatedTime factors.vehicleType *
        calculateSurgeMultiplier factors := by nlinarith [hS.1]
    constructor
    · nlinarith [hD.1]
    · nlinarith [hD.2]

/-- Witness for `poolDiscount_formula_and_price_bounds`: the hypothesis
`p ≤ 1` of the second conjunct discharged at `p = 1`, `d = 5`. -/
theorem poolDiscount_formula_and_price_bounds_witness :
    calculatePoolDiscount (some 1) (some 5) = 1.0 :=
  poolDiscount_formula_and_price_bounds.2.1 1 (some 5) (by norm_num)

/-- Modelled from the claim wording of the surge refresh: the raw multiplier
table (`1.0` for `r < 1.5`; `1.0 + (r−1.5)·0.4` for `1.5 ≤ r < 3.0`;
`1.6 + (r−3.0)·0.3` for `r ≥ 3.0`). -/
def surgeRawSpec (active drivers : ℚ) : ℚ :=
  let r := active / max drivers 1
  if r < 1.5 then 1.0
  else if r < 3.0 then 1.0 + (r - 1.5) * 0.4
  else 1.6 + (r - 3.0) * 0.3

/-- Modelled from the claim wording: `0.3·raw + 0.7·prev`, clamped to
`[1.0, 3.5]`, with no output rounding. -/
def surgeRefreshSpec (active drivers prev : ℚ) : ℚ :=
  max (min (0.3 * surgeRawSpec active drivers + 0.7 * prev) 3.5) 1

/-- 2-decimal rounding preserves membership in `[1, 3.5]` because both
endpoints lie on the cent grid. -/
theorem jsRound2_mem_clamp {x : ℚ} (h1 : 1 ≤ x) (h2 : x ≤ 3.5) :
    1 ≤ jsRound2 x ∧ jsRound2 x ≤ 3.5 := by
  unfold jsRound2
  constructor
  · have hfl : (100 : ℤ) ≤ ⌊x * 100 + 1/2⌋ := by
      apply Int.le_floor.mpr
      push_cast
      linarith
    rw [le_div_iff₀ (by norm_num : (0:ℚ) < 100)]
    calc (1 : ℚ) * 100 = ((100 : ℤ) : ℚ) := by norm_num
      _ ≤ (⌊x * 100 + 1/2⌋ : ℚ) := by exact_mod_cast hfl
  · have hfl : ⌊x * 100 + 1/2⌋ ≤ (350 : ℤ) := by
      have : ⌊x * 100 + 1/2⌋ ≤ ⌊(350.5 : ℚ)⌋ := by
        apply Int.floor_le_floor
        linarith
      have h350 : ⌊(350.5 : ℚ)⌋ = 350 := by norm_num [Int.floor_eq_iff]
      omega
    rw [div_le_iff₀ (by norm_num : (0:ℚ) < 100)]
    calc (⌊x * 100 + 1/2⌋ : ℚ) ≤ ((350 : ℤ) : ℚ) := by exact_mod_cast hfl
      _ = 3.5 * 100 := by norm_num

/-- C7 (amended).  The surge-zone refresh returns the claimed piecewise raw
multiplier smoothed by `0.3·raw + 0.7·prev`, clamped to `[1.0, 3.5]`, and
then rounded to 2 decimal places (halves up); the returned multiplier always
lies in `[1.0, 3.5]`, and for prev 1.0, active 30, drivers 5 it yields 1.45. -/
theorem updateSurgeZone_refresh_amended (a d p : ℚ) :
    (updateSurgeZone a d p).1 = jsRound2 (surgeRefreshSpec a d p) ∧
    1 ≤ (updateSurgeZone a d p).1 ∧ (updateSurgeZone a d p).1 ≤ 3.5 ∧
    (updateSurgeZone 30 5 1).1 = 1.45 := by
  have hraweq : ∀ a d : ℚ,
      (if a / max d 1 < 0.5 then ((1.0 : ℚ), DemandLevel.low)
       else if a / max d 1 < 1.5 then (1.0, DemandLevel.normal)
       else if a / max d 1 < 3.0 then (1.0 + (a / max d 1 - 1.5) * 0.4, DemandLevel.high)
       else (1.6 + (a / max d 1 - 3.0) * 0.3, DemandLevel.veryHigh)).1
      = surgeRawSpec a d := by
    intro a d
    unfold surgeRawSpec
    by_cases h05 : a / max d 1 < 0.5
    · rw [if_pos h05, if_pos (by linarith : a / max d 1 < 1.5)]
    · rw [if_neg h05]
      by_cases h15 : a / max d 1 < 1.5
      · rw [if_pos h15, if_pos h15]
      · rw [if_neg h15, if_neg h15]
        by_cases h30 : a / max d 1 < 3.0
        · rw [if_pos h30, if_pos h30]
        · rw [if_neg h30, if_neg h30]
  have hmain : ∀ a d p : ℚ,
      (updateSurgeZone a d p).1 = jsRound2 (surgeRefreshSpec a d p) := by
    intro a d p
    simp only [updateSurgeZone, surgeRefreshSpec]
    rw [hraweq a d]
    norm_num
  have hbounds : 1 ≤ (updateSurgeZone a d p).1 ∧ (updateSurgeZone a d p).1 ≤ 3.5 := by
    rw [hmain a d p]
    apply jsRound2_mem_clamp
    · exact le_max_right _ _
    · apply max_le
      · exact min_le_right _ _
      · norm_num
  refine ⟨hmain a d p, hbounds.1, hbounds.2, ?_⟩
  rw [hmain 30 5 1]
  norm_num [surgeRefreshSpec, surgeRawSpec, jsRound2]

/-- C7 (counterexample).  At active 8, drivers 5, prev 1.0 the code returns
the rounded value 1.01, not the clamped smoothed value 1.012 asserted by the
claim. -/
theorem updateSurgeZone_output_is_rounded :
    (updateSurgeZone 8 5 1).1 = 1.01 ∧ surgeRefreshSpec 8 5 1 = 1.012 ∧
      (updateSurgeZone 8 5 1).1 ≠ surgeRefreshSpec 8 5 1 := by
  refine ⟨?_, ?_, ?_⟩ <;> norm_num [updateSurgeZone, surgeRefreshSpec, surgeRawSpec, jsRound2]

/-! ## Pool locks (src/services/concurrency.ts)

The `pool_locks` table is modelled as an association list keyed by
`pool_id` (its PRIMARY KEY).  A D1 statement result carries `success`
(true whenever the SQL executed without raising — including an
`INSERT ... ON CONFLICT DO NOTHING` that inserted nothing and an `UPDATE`
whose WHERE clause matched no row) and `meta.changes` (the number of rows
actually written); the source itself distinguishes the two in
`updatePoolWithVersionCheck`, which checks `result.meta.changes > 0`.
Times are integer epoch milliseconds; the SQL clock `datetime('now')` and
`Date.now()` are modelled as the same instant `now`. -/

/-- A row of `pool_locks`. -/
structure LockRecord where
  locked_by : String
  locked_at : ℤ
  expires_at : ℤ
  lock_version : ℤ
  deriving Repr, DecidableEq

/-- The `pool_locks` table, keyed by `pool_id`. -/
abbrev LockTable := List (String × LockRecord)

/-- Result of a D1 `run()`: statement success plus rows changed. -/
structure RunResult where
  success : Bool
  changes : ℕ
  deriving Repr, DecidableEq

/-- `INSERT INTO pool_locks ... ON CONFLICT(pool_id) DO NOTHING`: inserts the
row when the key is absent; on conflict writes nothing but still reports
statement success. -/
def insertLockOnConflictDoNothing (tbl : LockTable) (poolId : String)
    (rec : LockRecord) : LockTable × RunResult :=
  if (tbl.find? (fun e => e.1 == poolId)).isSome then (tbl, ⟨true, 0⟩)
  else (tbl ++ [(poolId, rec)], ⟨true, 1⟩)

/-- `UPDATE pool_locks SET ... WHERE pool_id = ? AND expires_at < datetime('now')`:
conditionally steals an expired lock; matching no rows is still statement
success. -/
def updateStealIfExpired (tbl : LockTable) (poolId lockerId : String)
    (now newExpires : ℤ) : LockTable × RunResult :=
  match tbl.find? (fun e => e.1 == poolId) with
  | none => (tbl, ⟨true, 0⟩)
  | some (_, rec) =>
    if rec.expires_at < now then
      (tbl.map (fun e =>
        if e.1 == poolId then
          (e.1, { locked_by := lockerId, locked_at := now, expires_at := newExpires,
                  lock_version := rec.lock_version + 1 })
        else e), ⟨true, 1⟩)
    else (tbl, ⟨true, 0⟩)

/-- Lock options (`interface LockOptions`), optional fields defaulted by
`DEFAULT_LOCK_OPTIONS = { ttlSeconds: 30, maxRetries: 3, retryDelayMs: 50 }`. -/
structure LockOptions where
  ttlSeconds : Option ℕ := none
  maxRetries : Option ℕ := none
  retryDelayMs : Option ℕ := none

/-- Options with defaults applied (`{ ...DEFAULT_LOCK_OPTIONS, ...options }`). -/
structure ResolvedLockOptions where
  ttlSeconds : ℕ
  maxRetries : ℕ
  retryDelayMs : ℕ

/-- Merge user options over `DEFAULT_LOCK_OPTIONS`. -/
def resolveLockOptions (o : LockOptions) : ResolvedLockOptions :=
  ⟨o.ttlSeconds.getD 30, o.maxRetries.getD 3, o.retryDelayMs.getD 50⟩

/-- `acquirePoolLock(db, poolId, lockerId, options)`.  `now` is the current
epoch time and `rand` stands in for the `Math.random()` suffix of the
generated lock id.  The returned pair is (lock id or null, updated table). -/
def acquirePoolLock (tbl : LockTable) (poolId lockerId : String)
    (options : LockOptions) (now : ℤ) (rand : String) : Option String × LockTable :=
  let opts := resolveLockOptions options
  let lockId := poolId ++ "_" ++ toString now ++ "_" ++ rand
  let expiresAt := now + (opts.ttlSeconds : ℤ) * 1000
  let ins := insertLockOnConflictDoNothing tbl poolId
    ⟨lockerId, now, expiresAt, 1⟩
  if ins.2.success then (some lockId, ins.1)
  else
    match ins.1.find? (fun e => e.1 == poolId) with
    | none => (none, ins.1)
    | some (_, existing) =>
      if existing.expires_at < now then
        let claim := updateStealIfExpired ins.1 poolId lockerId now expiresAt
        if claim.2.success then (some lockId, claim.1) else (none, claim.1)
      else (none, ins.1)

/-- `releasePoolLock(db, poolId, lockerId)`:
`DELETE FROM pool_locks WHERE pool_id = ? AND locked_by = ?`. -/
def releasePoolLock (tbl : LockTable) (poolId lockerId : String) : LockTable × Bool :=
  (tbl.filter (fun e => !(e.1 == poolId && e.2.locked_by == lockerId)), true)

/-- C2.  A pool whose lease record is held by another holder and is NOT
expired: `acquirePoolLock` nevertheless returns a handle (and leaves the
table unchanged), because it tests `result.success` of the
`ON CONFLICT DO NOTHING` insert, which D1 reports as true even when the
conflicting row was left in place.  This contradicts the claimed contract
"fail (return no handle) otherwise". -/
theorem acquirePoolLock_succeeds_despite_active_lease :
    (([("poolA", ⟨"otherHolder", 0, 1000000, 1⟩)] : LockTable).find?
        (fun e => e.1 == "poolA")).isSome = true ∧
    (500000 : ℤ) < 1000000 ∧
    acquirePoolLock [("poolA", ⟨"otherHolder", 0, 1000000, 1⟩)] "poolA" "me" {} 500000 "r1"
      = (some "poolA_500000_r1", [("poolA", ⟨"otherHolder", 0, 1000000, 1⟩)]) := by
  refine ⟨rfl, by norm_num, ?_⟩
  rfl

/-! ### withPoolLock control flow (src/services/concurrency.ts)

`withPoolLock` is verified at the level of its control flow: the sequence of
acquisition outcomes is abstracted as an oracle `acquire : ℕ → Option String`
(the result of the k-th `acquirePoolLock` call), and the protected operation
as an `Except` value (`.error` modelling a thrown exception).  The
embedding records the attempts made, the sleeps performed, whether the
operation ran, and whether the lock was released. -/

/-- The retry loop of `withPoolLock`:
`for (attempt = 0; attempt < maxRetries; attempt++)` with
`sleep(retryDelayMs * (attempt + 1))` between attempts.  `fuel` is the
number of loop iterations remaining (`maxRetries - attempt` at every call).
Returns (lock id or null, attempts made so far + this loop, sleeps). -/
def acquireLoop (acquire : ℕ → Option String) (maxRetries retryDelayMs : ℕ) :
    ℕ → ℕ → Option String × ℕ × List ℕ
  | 0, attempt => (none, attempt, [])
  | fuel + 1, attempt =>
    match acquire attempt with
    | some lockId => (some lockId, attempt + 1, [])
    | none =>
      if attempt < maxRetries - 1 then
        let r := acquireLoop acquire maxRetries retryDelayMs fuel (attempt + 1)
        (r.1, r.2.1, retryDelayMs * (attempt + 1) :: r.2.2)
      else (none, attempt + 1, [])

/-- Observable outcome of one `withPoolLock` call. -/
structure WithLockOutcome (ε α : Type) where
  attempts : ℕ
  sleeps : List ℕ
  ranOp : Bool
  released : Bool
  result : Except ε (Option α)
  deriving Repr

/-- `withPoolLock(db, poolId, lockerId, operation, options)` control flow:
acquire with retries; on failure return null; on success run the operation
inside `try`/`finally` so the lock is released whether the operation returns
or throws, rethrowing any exception. -/
def withPoolLockFlow {ε α : Type} (acquire : ℕ → Option String)
    (op : Except ε α) (options : LockOptions) : WithLockOutcome ε α :=
  let opts := resolveLockOptions options
  let r := acquireLoop acquire opts.maxRetries opts.retryDelayMs opts.maxRetries 0
  match r.1 with
  | none => ⟨r.2.1, r.2.2, false, false, .ok none⟩
  | some _ =>
    match op with
    | .ok v => ⟨r.2.1, r.2.2, true, true, .ok (some v)⟩
    | .error e => ⟨r.2.1, r.2.2, true, true, .error e⟩

/-- In an aligned call (`fuel + attempt = maxRetries`) the retry loop makes
between one (when fuel is positive) and `maxRetries` total attempts. -/
theorem acquireLoop_attempts (acquire : ℕ → Option String) (m d : ℕ) :
    ∀ fuel attempt, fuel + attempt = m →
      attempt ≤ (acquireLoop acquire m d fuel attempt).2.1 ∧
      (acquireLoop acquire m d fuel attempt).2.1 ≤ m ∧
      (0 < fuel → attempt < (acquireLoop acquire m d fuel attempt).2.1) := by
  intro fuel
  induction fuel with
  | zero =>
    intro attempt halign
    simp only [acquireLoop]
    omega
  | succ fuel ih =>
    intro attempt halign
    simp only [acquireLoop]
    cases hacq : acquire attempt with
    | some lockId => simp only; omega
    | none =>
      simp only
      by_cases hlt : attempt < m - 1
      · rw [if_pos hlt]
        have := ih (attempt + 1) (by omega)
        simp only
        omega
      · rw [if_neg hlt]
        simp only
        omega

/-- In an aligned call the sleeps are `d·(k+1)` for each failed attempt `k`
that was followed by another attempt. -/
theorem acquireLoop_sleeps (acquire : ℕ → Option String) (m d : ℕ) :
    ∀ fuel attempt, fuel + attempt = m →
      (acquireLoop acquire m d fuel attempt).2.2 =
        (List.range' attempt ((acquireLoop acquire m d fuel attempt).2.1 - 1 - attempt)).map
          (fun k => d * (k + 1)) := by
  intro fuel
  induction fuel with
  | zero =>
    intro attempt halign
    simp only [acquireLoop]
    simp
  | succ fuel ih =>
    intro attempt halign
    simp only [acquireLoop]
    cases hacq : acquire attempt with
    | some lockId =>
      simp only
      simp
    | none =>
      simp only
      by_cases hlt : attempt < m - 1
      · rw [if_pos hlt]
        simp only
        have hrec := ih (attempt + 1) (by omega)
        have hatt := acquireLoop_attempts acquire m d fuel (attempt + 1) (by omega)
        have hfuel : 0 < fuel := by omega
        have h2 : attempt + 1 < (acquireLoop acquire m d fuel (attempt + 1)).2.1 :=
          hatt.2.2 hfuel
        rw [hrec]
        have hn : (acquireLoop acquire m d fuel (attempt + 1)).2.1 - 1 - attempt =
            ((acquireLoop acquire m d fuel (attempt + 1)).2.1 - 1 - (attempt + 1)) + 1 := by
          omega
        rw [hn, List.range'_succ]
        simp
      · rw [if_neg hlt]
        simp only
        simp

/-- In an aligned call the loop yields no handle exactly when every attempt
index below `maxRetries` fails; and then all `maxRetries` attempts are used. -/
theorem acquireLoop_isSome_iff (acquire : ℕ → Option String) (m d : ℕ) :
    ∀ fuel attempt, fuel + attempt = m →
      ((acquireLoop acquire m d fuel attempt).1.isSome = true ↔
        ∃ k, attempt ≤ k ∧ k < m ∧ (acquire k).isSome = true) ∧
      ((acquireLoop acquire m d fuel attempt).1 = none →
        (acquireLoop acquire m d fuel attempt).2.1 = m) := by
  intro fuel
  induction fuel with
  | zero =>
    intro attempt halign
    simp only [acquireLoop]
    constructor
    · simp only [Option.isSome_none, Bool.false_eq_true, false_iff]
      rintro ⟨k, hk1, hk2, _⟩
      omega
    · intro _
      omega
  | succ fuel ih =>
    intro attempt halign
    simp only [acquireLoop]
    cases hacq : acquire attempt with
    | some lockId =>
      simp only
      constructor
      · simp only [Option.isSome_some, true_iff]
        exact ⟨attempt, le_refl _, by omega, by rw [hacq]; rfl⟩
      · intro h
        exact absurd h (by simp)
    | none =>
      simp only
      by_cases hlt : attempt < m - 1
      · rw [if_pos hlt]
        simp only
        have hrec := ih (attempt + 1) (by omega)
        constructor
        · rw [hrec.1]
          constructor
          · rintro ⟨k, hk1, hk2, hk3⟩
            exact ⟨k, by omega, hk2, hk3⟩
          · rintro ⟨k, hk1, hk2, hk3⟩
            refine ⟨k, ?_, hk2, hk3⟩
            rcases Nat.eq_or_lt_of_le hk1 with h | h
            · exfalso
              rw [← h] at hk3
              rw [hacq] at hk3
              simp at hk3
            · omega
        · exact hrec.2
      · rw [if_neg hlt]
        simp only
        constructor
        · simp only [Option.isSome_none, Bool.false_eq_true, false_iff]
          rintro ⟨k, hk1, hk2, hk3⟩
          have hk : k = attempt := by omega
          rw [hk, hacq] at hk3
          simp at hk3
        · intro _
          omega

/-- C5.  `withPoolLock` makes at most `maxRetries` acquisition attempts
(default 3), sleeping `retryDelayMs·attempt` (attempts numbered from 1,
default base 50 ms) between consecutive attempts; it runs the operation
exactly when some attempt within the budget acquires the lease, in which
case the lease is released both on normal return and on a thrown exception
(whose error is propagated); on exhausted retries it returns the recoverable
null result without running the operation and without holding a lease. -/
theorem withPoolLock_retries_and_releases {ε α : Type} (acquire : ℕ → Option String)
    (op : Except ε α) (options : LockOptions) :
    (withPoolLockFlow acquire op options).attempts ≤ (resolveLockOptions options).maxRetries ∧
    (withPoolLockFlow acquire op options).sleeps =
      (List.range ((withPoolLockFlow acquire op options).attempts - 1)).map
        (fun k => (resolveLockOptions options).retryDelayMs * (k + 1)) ∧
    (withPoolLockFlow acquire op options).released = (withPoolLockFlow acquire op options).ranOp ∧
    (withPoolLockFlow acquire op options).result =
      (if (withPoolLockFlow acquire op options).ranOp then op.map some else Except.ok none) ∧
    ((withPoolLockFlow acquire op options).ranOp = true ↔
      ∃ k, k < (resolveLockOptions options).maxRetries ∧ (acquire k).isSome = true) := by
  have hrange : ∀ n : ℕ, List.range' 0 n = List.range n := by
    intro n
    rw [List.range_eq_range']
  set m := (resolveLockOptions options).maxRetries with hm
  set d := (resolveLockOptions options).retryDelayMs with hd
  clear_value m d
  have halign : m + 0 = m := by omega
  have hatt := acquireLoop_attempts acquire m d m 0 halign
  have hslp := acquireLoop_sleeps acquire m d m 0 halign
  have hiff := acquireLoop_isSome_iff acquire m d m 0 halign
  simp only [withPoolLockFlow]
  simp only [← hm, ← hd]
  cases hres : (acquireLoop acquire m d m 0).1 with
  | none =>
    simp only [hres]
    refine ⟨hatt.2.1, ?_, by trivial, by simp, ?_⟩
    · rw [hslp, ← hrange]
      simp
    · simp only [Bool.false_eq_true, false_iff]
      intro hex
      have := hiff.1.mpr (by
        obtain ⟨k, hk1, hk2⟩ := hex
        exact ⟨k, Nat.zero_le _, hk1, hk2⟩)
      rw [hres] at this
      simp at this
  | some lockId =>
    have hran : ∃ k, k < m ∧ (acquire k).isSome = true := by
      have := hiff.1.mp (by rw [hres]; rfl)
      obtain ⟨k, _, hk2, hk3⟩ := this
      exact ⟨k, hk2, hk3⟩
    cases op with
    | ok v =>
      simp only [hres]
      refine ⟨hatt.2.1, ?_, by trivial, by simp [Except.map], by simpa using hran⟩
      rw [hslp, ← hrange]
      simp
    | error e =>
      simp only [hres]
      refine ⟨hatt.2.1, ?_, by trivial, by simp [Except.map], by simpa using hran⟩
      rw [hslp, ← hrange]
      simp

/-! ## Route optimizer (src/algorithms/route-optimizer.ts)

JS `Map`s are association lists: `mapGet` returns the value at a key,
`mapSet` updates in place or appends (JS `Map.set` keeps the original
insertion position).  The JS `Set` of unvisited waypoints iterates in
insertion order; the greedy selection keeps the first strict minimum in
that order, modelled by scanning the list with its index. -/

/-- Association-list lookup (JS `Map.get`). -/
def mapGet {α : Type} (m : List (String × α)) (k : String) : Option α :=
  (m.find? (fun e => e.1 == k)).map (fun e => e.2)

/-- Association-list write (JS `Map.set`): update in place, else append. -/
def mapSet {α : Type} (m : List (String × α)) (k : String) (v : α) :
    List (String × α) :=
  if (m.find? (fun e => e.1 == k)).isSome then
    m.map (fun e => if e.1 == k then (k, v) else e)
  else m ++ [(k, v)]

/-- `interface RoutePoint extends Location`. -/
structure RoutePoint where
  lat : ℝ
  lng : ℝ
  passenger_id : String
  type : WaypointType
  time_window : Option ℝ

/-- The coordinate of a waypoint (a `RoutePoint` is used as a `Location`). -/
def RoutePoint.loc (w : RoutePoint) : Location := ⟨w.lat, w.lng⟩

/-- `interface PassengerConstraint`. -/
structure PassengerConstraint where
  maxDetourMinutes : ℝ
  directDistance : ℝ
  directTime : ℝ
  seatsRequired : ℝ
  luggageCount : ℝ

/-- `interface RouteConstraints`. -/
structure RouteConstraints where
  maxSeats : ℝ
  maxLuggage : ℝ
  passengerConstraints : List (String × PassengerConstraint)

/-- `interface OptimizedRoute`; `detours` is a JS `Map` in insertion order. -/
structure OptimizedRoute where
  waypoints : List RoutePoint
  total_distance : ℝ
  total_time : ℝ
  detours : List (String × ℝ)

/-- `isValidNextWaypoint`: a dropoff requires its passenger on board; a
pickup requires capacity for its passenger's seats and luggage. -/
noncomputable def isValidNextWaypoint (waypoint : RoutePoint) (pickedUp : List String)
    (currentSeats currentLuggage : ℝ) (constraints : RouteConstraints) : Bool :=
  match waypoint.type with
  | .dropoff => pickedUp.contains waypoint.passenger_id
  | .pickup =>
    match mapGet constraints.passengerConstraints waypoint.passenger_id with
    | none => false
    | some c =>
      if constraints.maxSeats < currentSeats + c.seatsRequired then false
      else if constraints.maxLuggage < currentLuggage + c.luggageCount then false
      else true

/-- The selection scan inside `greedyRouteConstruction`: walk the unvisited
waypoints in insertion order, keeping the first feasible waypoint of
strictly smallest distance from the current position (`bestDistance` starts
at `Infinity`; the comparison is strict `<`).  Returns the index in the
scanned list, the waypoint and its distance. -/
noncomputable def findBestWaypoint (constraints : RouteConstraints)
    (pickedUp : List String) (currentSeats currentLuggage : ℝ)
    (currentLocation : Location) :
    List RoutePoint → ℕ → Option (ℕ × RoutePoint × ℝ) → Option (ℕ × RoutePoint × ℝ)
  | [], _, acc => acc
  | w :: rest, i, acc =>
    if isValidNextWaypoint w pickedUp currentSeats currentLuggage constraints then
      let d := haversineDistance currentLocation w.loc
      match acc with
      | none => findBestWaypoint constraints pickedUp currentSeats currentLuggage
          currentLocation rest (i + 1) (some (i, w, d))
      | some best =>
        if d < best.2.2 then
          findBestWaypoint constraints pickedUp currentSeats currentLuggage
            currentLocation rest (i + 1) (some (i, w, d))
        else
          findBestWaypoint constraints pickedUp currentSeats currentLuggage
            currentLocation rest (i + 1) acc
    else
      findBestWaypoint constraints pickedUp currentSeats currentLuggage
        currentLocation rest (i + 1) acc

/-- The main loop of `greedyRouteConstruction`.  One waypoint is removed per
iteration, so `fuel = unvisited.length` at the top-level call always
suffices; the `none` returned on exhausted fuel with waypoints remaining is
unreachable.  State: unvisited set (insertion order), current location,
on-board passenger ids, current seats/luggage, accumulated distance/time,
route built so far. -/
noncomputable def greedyLoop (constraints : RouteConstraints) :
    ℕ → List RoutePoint → Location → List String → ℝ → ℝ → ℝ → ℝ →
    List RoutePoint → Option (List RoutePoint × ℝ × ℝ)
  | 0, unvisited, _, _, _, _, dist, time, acc =>
    if unvisited.isEmpty then some (acc, dist, time) else none
  | fuel + 1, unvisited, cur, pickedUp, seats, lug, dist, time, acc =>
    if unvisited.isEmpty then some (acc, dist, time)
    else
      match findBestWaypoint constraints pickedUp seats lug cur unvisited 0 none with
      | none => none
      | some (i, w, d) =>
        let unvisited2 := unvisited.eraseIdx i
        let dist2 := dist + d
        let time2 := time + estimateTravelTime d
        match w.type with
        | .pickup =>
          match mapGet constraints.passengerConstraints w.passenger_id with
          | some c =>
            greedyLoop constraints fuel unvisited2 w.loc
              (pickedUp ++ [w.passenger_id]) (seats + c.seatsRequired)
              (lug + c.luggageCount) dist2 time2 (acc ++ [w])
          | none =>
            greedyLoop constraints fuel unvisited2 w.loc
              (pickedUp ++ [w.passenger_id]) seats lug dist2 time2 (acc ++ [w])
        | .dropoff =>
          match mapGet constraints.passengerConstraints w.passenger_id with
          | some c =>
            greedyLoop constraints fuel unvisited2 w.loc
              (pickedUp.erase w.passenger_id) (seats - c.seatsRequired)
              (lug - c.luggageCount) dist2 time2 (acc ++ [w])
          | none =>
            greedyLoop constraints fuel unvisited2 w.loc
              (pickedUp.erase w.passenger_id) seats lug dist2 time2 (acc ++ [w])

/-- The body of `calculateDetours`: walk the route accumulating travel time
(no leg before the first waypoint); a pickup records its passenger's pickup
time; a dropoff records the detour `(now − pickupTime) − directTime`, where
a missing pickup time defaults to 0 (`pickupTimes.get(id) || 0`). -/
noncomputable def calcDetoursAux (constraints : RouteConstraints) :
    List RoutePoint → Option RoutePoint → ℝ → List (String × ℝ) →
    List (String × ℝ) → List (String × ℝ)
  | [], _, _, _, detours => detours
  | w :: rest, prev, currentTime, pickupTimes, detours =>
    let currentTime2 :=
      match prev with
      | none => currentTime
      | some pw => currentTime + estimateTravelTime (haversineDistance pw.loc w.loc)
    match w.type with
    | .pickup =>
      calcDetoursAux constraints rest (some w) currentTime2
        (mapSet pickupTimes w.passenger_id currentTime2) detours
    | .dropoff =>
      let pickupTime := (mapGet pickupTimes w.passenger_id).getD 0
      let actualTime := currentTime2 - pickupTime
      match mapGet constraints.passengerConstraints w.passenger_id with
      | some c =>
        calcDetoursAux constraints rest (some w) currentTime2 pickupTimes
          (mapSet detours w.passenger_id (actualTime - c.directTime))
      | none =>
        calcDetoursAux constraints rest (some w) currentTime2 pickupTimes detours

/-- `calculateDetours(route, constraints)`. -/
noncomputable def calculateDetours (route : List RoutePoint)
    (constraints : RouteConstraints) : List (String × ℝ) :=
  calcDetoursAux constraints route none 0 [] []

/-- The detour validation loop shared by the greedy stage and 2-opt: every
recorded detour must not exceed its passenger's `maxDetourMinutes`. -/
noncomputable def detoursRespected (detours : List (String × ℝ))
    (constraints : RouteConstraints) : Bool :=
  detours.all (fun e =>
    match mapGet constraints.passengerConstraints e.1 with
    | none => true
    | some c => if c.maxDetourMinutes < e.2 then false else true)

/-- `greedyRouteConstruction(waypoints, startLocation, constraints)`. -/
noncomputable def greedyRouteConstruction (waypoints : List RoutePoint)
    (startLocation : Location) (constraints : RouteConstraints) :
    Option OptimizedRoute :=
  match greedyLoop constraints waypoints.length waypoints startLocation [] 0 0 0 0 [] with
  | none => none
  | some (route, dist, time) =>
    let detours := calculateDetours route constraints
    if detoursRespected detours constraints then
      some ⟨route, dist, time, detours⟩
    else none

/-- The 2-opt candidate `[...slice(0, i+1), ...slice(i+1, j+1).reverse(),
...slice(j+1)]`. -/
def reverseSegment (w : List RoutePoint) (i j : ℕ) : List RoutePoint :=
  w.take (i + 1) ++ ((w.drop (i + 1)).take (j - i)).reverse ++ w.drop (j + 1)

/-- The candidate distance of 2-opt: sum of the legs between consecutive
waypoints (`for k in 1..length-1`), with no leg from the start location. -/
noncomputable def pathDistance : List RoutePoint → ℝ
  | a :: b :: rest => haversineDistance a.loc b.loc + pathDistance (b :: rest)
  | _ => 0

/-- The inner `j` loop of `twoOptOptimization` at a fixed `i`.  The loop
condition `j < bestRoute.waypoints.length` reads the current best route;
`fuel` bounds the iterations (segment reversal preserves length, so
`fuel = waypoints.length` at entry always suffices). -/
noncomputable def twoOptInner (constraints : RouteConstraints) (i : ℕ) :
    ℕ → ℕ → OptimizedRoute → Bool → OptimizedRoute × Bool
  | 0, _, best, improved => (best, improved)
  | fuel + 1, j, best, improved =>
    if j < best.waypoints.length then
      let newWaypoints := reverseSegment best.waypoints i j
      let newDistance := pathDistance newWaypoints
      if newDistance < best.total_distance then
        let newDetours := calculateDetours newWaypoints constraints
        if detoursRespected newDetours constraints then
          twoOptInner constraints i fuel (j + 1)
            ⟨newWaypoints, newDistance, estimateTravelTime newDistance, newDetours⟩ true
        else twoOptInner constraints i fuel (j + 1) best improved
      else twoOptInner constraints i fuel (j + 1) best improved
    else (best, improved)

/-- The outer `i` loop of one 2-opt sweep (`for i in 0..length-2`, inner
loop from `j = i+2`). -/
noncomputable def twoOptMiddle (constraints : RouteConstraints) :
    ℕ → ℕ → OptimizedRoute → Bool → OptimizedRoute × Bool
  | 0, _, best, improved => (best, improved)
  | fuel + 1, i, best, improved =>
    if i < best.waypoints.length - 1 then
      let r := twoOptInner constraints i best.waypoints.length (i + 2) best improved
      twoOptMiddle constraints fuel (i + 1) r.1 r.2
    else (best, improved)

/-- One sweep of the `while (improved ...)` body: `improved = false`, then
the double loop over `(i, j)` pairs. -/
noncomputable def twoOptSweep (constraints : RouteConstraints)
    (best : OptimizedRoute) : OptimizedRoute × Bool :=
  twoOptMiddle constraints best.waypoints.length 0 best false

/-- The `while (improved && iterations < MAX_ITERATIONS)` loop: runs sweeps
until one makes no improvement, or 100 sweeps have run. -/
noncomputable def twoOptWhile (constraints : RouteConstraints) :
    ℕ → OptimizedRoute → OptimizedRoute
  | 0, best => best
  | fuel + 1, best =>
    let r := twoOptSweep constraints best
    if r.2 then twoOptWhile constraints fuel r.1 else r.1

/-- `twoOptOptimization(route, constraints)` with `MAX_ITERATIONS = 100`. -/
noncomputable def twoOptOptimization (route : OptimizedRoute)
    (constraints : RouteConstraints) : OptimizedRoute :=
  twoOptWhile constraints 100 route

/-- Passenger row (`interface Passenger`); `requested_at` in epoch ms. -/
structure Passenger where
  id : String
  user_id : String
  pickup_lat : ℝ
  pickup_lng : ℝ
  dropoff_lat : ℝ
  dropoff_lng : ℝ
  luggage_count : ℝ
  seats_required : ℝ
  max_detour_minutes : ℝ
  detour_tolerance : ℝ
  status : PassengerStatus
  pool_id : Option String
  requested_at : ℤ
  base_price : Option ℝ
  final_price : Option ℝ
  surge_multiplier : ℝ
  cancelled_at : Option ℤ
  cancellation_reason : Option String

/-- The waypoint build loop of `optimizeRoute`: per passenger, its pickup
then its dropoff. -/
def buildWaypoints : List Passenger → List RoutePoint
  | [] => []
  | p :: rest =>
    ⟨p.pickup_lat, p.pickup_lng, p.id, .pickup, some p.max_detour_minutes⟩ ::
    ⟨p.dropoff_lat, p.dropoff_lng, p.id, .dropoff, some p.max_detour_minutes⟩ ::
    buildWaypoints rest

/-- `optimizeRoute(passengers, startLocation, constraints)`: greedy
construction followed by 2-opt improvement; null when greedy fails. -/
noncomputable def optimizeRoute (passengers : List Passenger)
    (startLocation : Location) (constraints : RouteConstraints) :
    Option OptimizedRoute :=
  match greedyRouteConstruction (buildWaypoints passengers) startLocation constraints with
  | none => none
  | some result => some (twoOptOptimization result constraints)

/-- JS `Set.add`: append if absent. -/
def setAdd (l : List String) (x : String) : List String :=
  if l.contains x then l else l ++ [x]

/-- The `passengers` set built by `calculateEfficiencyScore` (insertion
order, first occurrence kept). -/
def passengerIdSet (ws : List RoutePoint) : List String :=
  ws.foldl (fun s w => setAdd s w.passenger_id) []

/-- `calculateEfficiencyScore(route)`: sum over distinct passengers of the
direct pickup-to-dropoff haversine distance, divided by the total distance;
0 when the total distance is 0. -/
noncomputable def calculateEfficiencyScore (route : OptimizedRoute) : ℝ :=
  let pids := passengerIdSet route.waypoints
  let directDistanceSum := pids.foldl (fun acc pid =>
    match route.waypoints.find? (fun w => w.passenger_id == pid && w.type == WaypointType.pickup),
      route.waypoints.find? (fun w => w.passenger_id == pid && w.type == WaypointType.dropoff) with
    | some pickup, some dropoff => acc + haversineDistance pickup.loc dropoff.loc
    | _, _ => acc) 0
  if route.total_distance = 0 then 0
  else directDistanceSum / route.total_distance

/-! ### Efficiency score (C10) -/

/-- One distinct passenger's direct distance as seen by the efficiency
score: the haversine distance from its first pickup waypoint to its first
dropoff waypoint, or 0 when either is missing. -/
noncomputable def directDistanceOf (route : OptimizedRoute) (pid : String) : ℝ :=
  match route.waypoints.find? (fun w => w.passenger_id == pid && w.type == WaypointType.pickup),
    route.waypoints.find? (fun w => w.passenger_id == pid && w.type == WaypointType.dropoff) with
  | some pickup, some dropoff => haversineDistance pickup.loc dropoff.loc
  | _, _ => 0

/-- Sum, over the distinct passenger ids of a route, of the direct
pickup-to-dropoff haversine distances. -/
noncomputable def directDistanceSum (route : OptimizedRoute) : ℝ :=
  (((route.waypoints.map (fun w => w.passenger_id)).dedup).map (directDistanceOf route)).sum

theorem setAdd_nodup (l : List String) (x : String) (h : l.Nodup) :
    (setAdd l x).Nodup := by
  unfold setAdd
  by_cases hx : l.contains x
  · rw [if_pos hx]; exact h
  · rw [if_neg hx]
    rw [List.nodup_append]
    refine ⟨h, List.nodup_singleton x, ?_⟩
    intro a ha hb
    simp only [List.mem_singleton] at hb
    subst hb
    exact hx (List.elem_iff.mpr ha)

theorem setAdd_mem (l : List String) (x a : String) :
    a ∈ setAdd l x ↔ a ∈ l ∨ a = x := by
  unfold setAdd
  by_cases hx : l.contains x
  · rw [if_pos hx]
    constructor
    · exact Or.inl
    · rintro (h | h)
      · exact h
      · subst h; exact List.elem_iff.mp hx
  · rw [if_neg hx]
    simp

theorem passengerIdSet_go_nodup (ws : List RoutePoint) :
    ∀ s : List String, s.Nodup →
      (ws.foldl (fun s w => setAdd s w.passenger_id) s).Nodup := by
  induction ws with
  | nil => intro s h; exact h
  | cons w rest ih =>
    intro s h
    exact ih _ (setAdd_nodup _ _ h)

theorem passengerIdSet_go_mem (ws : List RoutePoint) :
    ∀ (s : List String) (a : String),
      a ∈ ws.foldl (fun s w => setAdd s w.passenger_id) s ↔
        a ∈ s ∨ a ∈ ws.map (fun w => w.passenger_id) := by
  induction ws with
  | nil => intro s a; simp
  | cons w rest ih =>
    intro s a
    simp only [List.foldl_cons, List.map_cons, List.mem_cons]
    rw [ih]
    rw [setAdd_mem]
    tauto

/-- The insertion-ordered passenger set of the efficiency score is a
permutation of the deduplicated passenger-id list. -/
theorem passengerIdSet_nodup (ws : List RoutePoint) : (passengerIdSet ws).Nodup :=
  passengerIdSet_go_nodup ws [] List.nodup_nil

theorem passengerIdSet_perm (ws : List RoutePoint) :
    (passengerIdSet ws).Perm ((ws.map (fun w => w.passenger_id)).dedup) := by
  rw [List.perm_ext_iff_of_nodup (passengerIdSet_nodup ws) (List.nodup_dedup _)]
  intro a
  rw [List.mem_dedup]
  unfold passengerIdSet
  rw [passengerIdSet_go_mem]
  simp

theorem effScore_fold_eq_sum (route : OptimizedRoute) :
    ∀ (pids : List String) (acc : ℝ),
      pids.foldl (fun acc pid =>
        match route.waypoints.find? (fun w => w.passenger_id == pid && w.type == WaypointType.pickup),
          route.waypoints.find? (fun w => w.passenger_id == pid && w.type == WaypointType.dropoff) with
        | some pickup, some dropoff => acc + haversineDistance pickup.loc dropoff.loc
        | _, _ => acc) acc
      = acc + (pids.map (directDistanceOf route)).sum := by
  intro pids
  induction pids with
  | nil => intro acc; simp
  | cons pid rest ih =>
    intro acc
    simp only [List.foldl_cons, List.map_cons, List.sum_cons]
    rw [ih]
    unfold directDistanceOf
    cases hpk : route.waypoints.find?
        (fun w => w.passenger_id == pid && w.type == WaypointType.pickup) with
    | none => simp only; ring
    | some pk =>
      cases hdr : route.waypoints.find?
          (fun w => w.passenger_id == pid && w.type == WaypointType.dropoff) with
      | none => simp only; ring
      | some dr => simp only; ring

/-- C10.  `calculateEfficiencyScore` returns 0 when the route's total
distance is 0, and otherwise the sum of each distinct passenger's direct
pickup-to-dropoff haversine distance divided by the total distance; the
division is guarded by the zero test. -/
theorem calculateEfficiencyScore_spec (route : OptimizedRoute) :
    calculateEfficiencyScore route =
      if route.total_distance = 0 then 0
      else directDistanceSum route / route.total_distance := by
  have hfold := effScore_fold_eq_sum route (passengerIdSet route.waypoints) 0
  have hperm : ((passengerIdSet route.waypoints).map (directDistanceOf route)).sum =
      (((route.waypoints.map (fun w => w.passenger_id)).dedup).map
        (directDistanceOf route)).sum :=
    ((passengerIdSet_perm route.waypoints).map (directDistanceOf route)).sum_eq
  simp only [calculateEfficiencyScore]
  rw [hfold, hperm, zero_add]
  unfold directDistanceSum
  rfl

/-! ## Matcher (src/algorithms/matcher.ts) -/

/-- `interface MatchingConfig`. -/
structure MatchingConfig where
  maxPoolSize : ℕ
  maxSearchRadius : ℝ
  minDirectionSimilarity : ℝ
  maxDetourMultiplier : ℝ
  timeoutMs : ℕ

/-- `DEFAULT_CONFIG`. -/
noncomputable def DEFAULT_CONFIG : MatchingConfig :=
  { maxPoolSize := 4
    maxSearchRadius := 5.0
    minDirectionSimilarity := 45
    maxDetourMultiplier := 1.5
    timeoutMs := 250 }

/-- `interface MatchingResult`; `pricing` is a JS `Map` passenger → price. -/
structure MatchingResult where
  pool_id : String
  passengers : List String
  route : OptimizedRoute
  pricing : List (String × ℝ)
  feasible : Bool
  efficiency_score : ℝ

/-- A passenger's pickup coordinate. -/
def Passenger.pickupLoc (p : Passenger) : Location := ⟨p.pickup_lat, p.pickup_lng⟩

/-- A passenger's dropoff coordinate. -/
def Passenger.dropoffLoc (p : Passenger) : Location := ⟨p.dropoff_lat, p.dropoff_lng⟩

namespace Matcher

/-- The matcher's `determineVehicleType(seats, luggage)`: smallest vehicle
class whose capacities dominate the given totals, or null. -/
noncomputable def determineVehicleType (seats luggage : ℝ) : Option VehicleType :=
  if seats ≤ 4 ∧ luggage ≤ 3 then some .sedan
  else if seats ≤ 6 ∧ luggage ≤ 5 then some .suv
  else if seats ≤ 8 ∧ luggage ≤ 8 then some .van
  else none

/-- Capacity pair of a vehicle class (`getVehicleCapacity`). -/
structure VehicleCapacity where
  maxSeats : ℝ
  maxLuggage : ℝ

/-- `getVehicleCapacity(type)`. -/
noncomputable def getVehicleCapacity : VehicleType → VehicleCapacity
  | .sedan => ⟨4, 3⟩
  | .suv => ⟨6, 5⟩
  | .van => ⟨8, 8⟩

/-- The matcher's `calculateCentroid(locations)` (mean of coordinates). -/
noncomputable def calculateCentroid (locations : List Location) : Location :=
  { lat := (locations.map (fun l => l.lat)).sum / locations.length
    lng := (locations.map (fun l => l.lng)).sum / locations.length }

/-- `isCompatible(existing, candidate, config)`: direction similarity with
every admitted passenger, and combined seats ≤ 6, combined luggage ≤ 8. -/
noncomputable def isCompatible (existing : List Passenger) (candidate : Passenger)
    (config : MatchingConfig) : Bool :=
  if existing.all (fun p =>
      isSimilarDirection p.pickupLoc p.dropoffLoc candidate.pickupLoc
        candidate.dropoffLoc config.minDirectionSimilarity) then
    let totalSeats := existing.foldl (fun sum p => sum + p.seats_required) 0 +
      candidate.seats_required
    let totalLuggage := existing.foldl (fun sum p => sum + p.luggage_count) 0 +
      candidate.luggage_count
    if 6 < totalSeats ∨ 8 < totalLuggage then false else true
  else false

/-- `tryFormPool(passengers, config)`.  The generated pool id (from clock
and `Math.random()`) is threaded as the explicit argument `poolId`.  The JS
falsy defaults `base_price || 0` and `surge_multiplier || 1.0` are embedded
literally. -/
noncomputable def tryFormPool (passengers : List Passenger)
    (config : MatchingConfig) (poolId : String) : Option MatchingResult :=
  if passengers.isEmpty then none
  else
    let totalSeats := passengers.foldl (fun sum p => sum + p.seats_required) 0
    let totalLuggage := passengers.foldl (fun sum p => sum + p.luggage_count) 0
    match determineVehicleType totalSeats totalLuggage with
    | none => none
    | some vehicleType =>
      let cap := getVehicleCapacity vehicleType
      let passengerConstraints := passengers.map (fun p =>
        let directDistance := haversineDistance p.pickupLoc p.dropoffLoc
        (p.id, PassengerConstraint.mk p.max_detour_minutes directDistance
          (estimateTravelTime directDistance) p.seats_required p.luggage_count))
      let startLocation := calculateCentroid (passengers.map Passenger.pickupLoc)
      match optimizeRoute passengers startLocation
          ⟨cap.maxSeats, cap.maxLuggage, passengerConstraints⟩ with
      | none => none
      | some route =>
        let pricing := passengers.map (fun p =>
          let basePrice := p.base_price.getD 0
          let surgeMultiplier := if p.surge_multiplier = 0 then 1.0 else p.surge_multiplier
          let poolDiscount := 1 - 0.15 * ((passengers.length : ℝ) - 1)
          (p.id, basePrice * surgeMultiplier * max poolDiscount 0.50))
        some
          { pool_id := poolId
            passengers := passengers.map (fun p => p.id)
            route := route
            pricing := pricing
            feasible := true
            efficiency_score := calculateEfficiencyScore route }

/-- The inner absorption scan of `buildSpatialClusters`: walk the full
passenger list, absorbing every unassigned passenger within `maxRadius` of
the seed's pickup. -/
noncomputable def absorbNearby (all : List Passenger) (seedPickup : Location)
    (maxRadius : ℝ) (cluster : List Passenger) (assigned : List String) :
    List Passenger × List String :=
  all.foldl (fun acc other =>
    if acc.2.contains other.id then acc
    else if haversineDistance seedPickup other.pickupLoc ≤ maxRadius then
      (acc.1 ++ [other], acc.2 ++ [other.id])
    else acc) (cluster, assigned)

/-- The outer loop of `buildSpatialClusters`. -/
noncomputable def clusterLoop (all : List Passenger) (maxRadius : ℝ) :
    List Passenger → List String → List (List Passenger)
  | [], _ => []
  | p :: rest, assigned =>
    if assigned.contains p.id then clusterLoop all maxRadius rest assigned
    else
      let r := absorbNearby all p.pickupLoc maxRadius [p] (assigned ++ [p.id])
      r.1 :: clusterLoop all maxRadius rest r.2

/-- `buildSpatialClusters(passengers, maxRadius)`. -/
noncomputable def buildSpatialClusters (passengers : List Passenger)
    (maxRadius : ℝ) : List (List Passenger) :=
  clusterLoop passengers maxRadius passengers []

/-- The greedy admission scan of `formPoolsFromCluster`: the remainder of
the cluster is walked newest-first (`for i = remaining.length-1; i >= 0;
i--`), admitting a compatible candidate until the pool size cap; admitted
candidates are spliced out of `remaining`.  Returns the grown pool and the
admitted ids. -/
noncomputable def admitLoop (config : MatchingConfig) :
    List Passenger → List Passenger → List Passenger × List String
  | [], pool => (pool, [])
  | c :: rest, pool =>
    if config.maxPoolSize ≤ pool.length then (pool, [])
    else if isCompatible pool c config then
      let r := admitLoop config rest (pool ++ [c])
      (r.1, c.id :: r.2)
    else admitLoop config rest pool

/-- The pool-growing loop of `formPoolsFromCluster` for clusters larger than
`maxPoolSize`: shift the oldest passenger as seed, admit newest-first from
the rest, try to form a pool, and repeat with the remaining members.
`idGen` supplies the generated pool ids. -/
noncomputable def formPoolsLoop (config : MatchingConfig) (idGen : ℕ → String) :
    List Passenger → ℕ → List MatchingResult
  | [], _ => []
  | seed :: rest, n =>
    let r := admitLoop config rest.reverse [seed]
    let remaining2 := rest.filter (fun p => !(r.2.contains p.id))
    match tryFormPool r.1 config (idGen n) with
    | some result => result :: formPoolsLoop config idGen remaining2 (n + 1)
    | none => formPoolsLoop config idGen remaining2 (n + 1)
  termination_by l _ => l.length
  decreasing_by
    all_goals
      simp only [List.length_cons]
      have := List.length_filter_le
        (fun p => !((admitLoop config rest.reverse [seed]).2.contains p.id)) rest
      omega

/-- `formPoolsFromCluster(cluster, config)`. -/
noncomputable def formPoolsFromCluster (cluster : List Passenger)
    (config : MatchingConfig) (idGen : ℕ → String) : List MatchingResult :=
  if cluster.length ≤ config.maxPoolSize then
    match tryFormPool cluster config (idGen 0) with
    | some result => [result]
    | none => []
  else formPoolsLoop config idGen cluster 0

end Matcher

/-! ## Dispatch service (src/services/ride-pooling.ts) -/

namespace RidePooling

/-- The service's `determineVehicleType(passengerCount)`: selected from the
passenger COUNT only (`<= 2` sedan, `<= 4` suv, else van). -/
def determineVehicleType (passengerCount : ℕ) : VehicleType :=
  if passengerCount ≤ 2 then .sedan
  else if passengerCount ≤ 4 then .suv
  else .van

/-- The service's `getVehicleCapacity(type)`. -/
noncomputable def getVehicleCapacity : VehicleType → Matcher.VehicleCapacity
  | .sedan => ⟨4, 3⟩
  | .suv => ⟨6, 5⟩
  | .van => ⟨8, 8⟩

/-- A row of the `pools` table as written by a proposal commit in
`matchPendingPassengers`. -/
structure PoolRow where
  id : String
  vehicle_type : VehicleType
  max_seats : ℝ
  max_luggage : ℝ
  current_seats : ℝ
  current_luggage : ℝ
  status : PoolStatus
  total_distance : ℝ
  version : ℤ

/-- The `INSERT INTO pools` values of one proposal commit
(matchPendingPassengers, lines 144–167): vehicle class and capacity from the
count-based `determineVehicleType`, `current_seats` set to the passenger
count, `current_luggage` to the summed `luggage_count` of the named
passengers (`p?.luggage_count || 0`), status forming, version 0. -/
noncomputable def poolRowOfResult (result : MatchingResult)
    (passengers : List Passenger) : PoolRow :=
  let vehicleType := determineVehicleType result.passengers.length
  let capacity := getVehicleCapacity vehicleType
  { id := result.pool_id
    vehicle_type := vehicleType
    max_seats := capacity.maxSeats
    max_luggage := capacity.maxLuggage
    current_seats := (result.passengers.length : ℝ)
    current_luggage := result.passengers.foldl (fun sum pid =>
      sum + (((passengers.find? (fun p => p.id == pid)).map
        (fun p => p.luggage_count)).getD 0)) 0
    status := .forming
    total_distance := result.route.total_distance
    version := 0 }

/-- A row of the `waypoints` table. -/
structure WaypointRow where
  id : String
  pool_id : String
  passenger_id : String
  sequence_order : ℕ
  waypoint_type : WaypointType
  lat : ℝ
  lng : ℝ

/-- The persistent state touched by `cancelRideRequest`: the `passengers`,
`pools` and `waypoints` tables plus the `pool_locks` table. -/
structure ServiceDB where
  passengers : List (String × Passenger)
  pools : List (String × PoolRow)
  waypoints : List WaypointRow
  pool_locks : LockTable

/-- Update the row at a key of an association-list table. -/
def tableUpdate {α : Type} (tbl : List (String × α)) (k : String) (f : α → α) :
    List (String × α) :=
  tbl.map (fun e => if e.1 == k then (e.1, f e.2) else e)

/-- The retry loop of `withPoolLock` over the lock table (the acquisition
outcome here is deterministic, as `acquirePoolLock` is; `fuel` is the
remaining attempts). -/
def withPoolLockAcquire (poolId lockerId : String) (now : ℤ) (rand : String) :
    ℕ → LockTable → Option String × LockTable
  | 0, tbl => (none, tbl)
  | fuel + 1, tbl =>
    let r := acquirePoolLock tbl poolId lockerId {} now rand
    match r.1 with
    | some lockId => (some lockId, r.2)
    | none => withPoolLockAcquire poolId lockerId now rand fuel r.2

/-- `withPoolLock(db, poolId, lockerId, operation)` over the service state:
acquire (up to the default 3 retries), run the operation, always release;
returns the operation result or null when no lock could be acquired. -/
noncomputable def withPoolLockDB {α : Type} (db : ServiceDB) (poolId lockerId : String)
    (now : ℤ) (rand : String) (operation : ServiceDB → ServiceDB × α) :
    Option α × ServiceDB :=
  let acq := withPoolLockAcquire poolId lockerId now rand
    (resolveLockOptions {}).maxRetries db.pool_locks
  match acq.1 with
  | none => (none, { db with pool_locks := acq.2 })
  | some _ =>
    let afterOp := operation { db with pool_locks := acq.2 }
    let released := releasePoolLock afterOp.1.pool_locks poolId lockerId
    (some afterOp.2, { afterOp.1 with pool_locks := released.1 })

/-- The critical section of a pooled cancellation: flip the passenger to
cancelled clearing its pool reference, decrement the pool's load by
`seats_required`/`luggage_count` bumping its version, delete the
passenger's waypoints, and destroy the pool (cascading to its waypoints)
when `current_seats ≤ 0` afterwards. -/
noncomputable def cancelPooledSection (passengerId : String) (passenger : Passenger)
    (poolId : String) (reason : Option String) (now : ℤ) (db : ServiceDB) :
    ServiceDB × Bool :=
  let cancelledPassengers := tableUpdate db.passengers passengerId
    (fun p => { p with
      status := PassengerStatus.cancelled
      cancelled_at := some now
      cancellation_reason := some (reason.getD "User cancelled")
      pool_id := none })
  let db1 := { db with passengers := cancelledPassengers }
  let decrementedPools := tableUpdate db1.pools poolId
    (fun pr => { pr with
      current_seats := pr.current_seats - passenger.seats_required,
      current_luggage := pr.current_luggage - passenger.luggage_count,
      version := pr.version + 1 })
  let db2 := { db1 with pools := decrementedPools }
  let remainingWaypoints := db2.waypoints.filter (fun w => !(w.passenger_id == passengerId))
  let db3 := { db2 with waypoints := remainingWaypoints }
  let db4 :=
    match mapGet db3.pools poolId with
    | some pr =>
      if pr.current_seats ≤ 0 then
        { db3 with
          pools := db3.pools.filter (fun e => !(e.1 == poolId))
          waypoints := db3.waypoints.filter (fun w => !(w.pool_id == poolId)) }
      else db3
    | none => db3
  (db4, true)

/-- `cancelRideRequest(db, passengerId, reason)`.  `now` is the current
epoch time and `rand` the random suffix of the generated lock-holder
request id.  Failure is the value `false`, never an exception. -/
noncomputable def cancelRideRequest (db : ServiceDB) (passengerId : String)
    (reason : Option String) (now : ℤ) (rand : String) : ServiceDB × Bool :=
  match mapGet db.passengers passengerId with
  | none => (db, false)
  | some passenger =>
    if passenger.status = .cancelled ∨ passenger.status = .completed then
      (db, false)
    else if passenger.pool_id = none ∨ passenger.status = .pending then
      let cancelled := tableUpdate db.passengers passengerId
        (fun p => { p with
          status := PassengerStatus.cancelled
          cancelled_at := some now
          cancellation_reason := some (reason.getD "User cancelled") })
      ({ db with passengers := cancelled }, true)
    else
      match passenger.pool_id with
      | none => (db, false)
      | some poolId =>
        let requestId := "req_" ++ toString now ++ "_" ++ rand
        let r := withPoolLockDB db poolId requestId now rand
          (cancelPooledSection passengerId passenger poolId reason now)
        match r.1 with
        | some b => (r.2, b)
        | none => (r.2, false)

end RidePooling

/-! ### Cancellation on a terminal passenger (C8) -/

/-- C8.  `cancelRideRequest` on a passenger whose state is Cancelled or
Completed returns the failure value (`false`, not an exception) and leaves
the whole service state unchanged. -/
theorem cancelRideRequest_terminal_noop (db : RidePooling.ServiceDB)
    (passengerId : String) (reason : Option String) (now : ℤ) (rand : String)
    (p : Passenger) (hlook : mapGet db.passengers passengerId = some p)
    (hterm : p.status = .cancelled ∨ p.status = .completed) :
    RidePooling.cancelRideRequest db passengerId reason now rand = (db, false) := by
  unfold RidePooling.cancelRideRequest
  rw [hlook]
  simp only
  rw [if_pos hterm]

/-- A concrete already-cancelled passenger for the C8 witness. -/
noncomputable def cancelledPassengerW : Passenger :=
  { id := "p1", user_id := "u1", pickup_lat := 0, pickup_lng := 0,
    dropoff_lat := 0, dropoff_lng := 1, luggage_count := 0, seats_required := 1,
    max_detour_minutes := 15, detour_tolerance := 1.5,
    status := .cancelled, pool_id := none, requested_at := 0,
    base_price := some 10, final_price := none, surge_multiplier := 1,
    cancelled_at := some 0, cancellation_reason := some "User cancelled" }

/-- A concrete service state holding only the cancelled passenger. -/
noncomputable def serviceDBW : RidePooling.ServiceDB :=
  { passengers := [("p1", cancelledPassengerW)], pools := [], waypoints := [],
    pool_locks := [] }

/-- Witness for `cancelRideRequest_terminal_noop` at a concrete state. -/
theorem cancelRideRequest_terminal_noop_witness :
    RidePooling.cancelRideRequest serviceDBW "p1" none 0 "r" = (serviceDBW, false) :=
  cancelRideRequest_terminal_noop serviceDBW "p1" none 0 "r" cancelledPassengerW
    rfl (Or.inl rfl)

/-! ### A committed proposal with luggage exceeding the persisted capacity
(C3, C4)

Two pending passengers at the same coordinates, one seat each, two luggage
pieces each.  The matcher's totals-based `determineVehicleType (2, 4)`
selects an SUV and plans the route under SUV capacities, but the commit in
`matchPendingPassengers` re-derives the class from the passenger COUNT
(2 → sedan) and persists `max_luggage = 3 < 4 = current_luggage`. -/

/-- Passenger "A": one seat, two luggage, at the origin. -/
noncomputable def passengerA2 : Passenger :=
  { id := "A", user_id := "uA", pickup_lat := 0, pickup_lng := 0,
    dropoff_lat := 0, dropoff_lng := 0, luggage_count := 2, seats_required := 1,
    max_detour_minutes := 15, detour_tolerance := 1.5,
    status := .pending, pool_id := none, requested_at := 1,
    base_price := some 100, final_price := none, surge_multiplier := 1,
    cancelled_at := none, cancellation_reason := none }

/-- Passenger "B": one seat, two luggage, at the origin. -/
noncomputable def passengerB2 : Passenger :=
  { passengerA2 with id := "B", user_id := "uB", requested_at := 2 }

/-- The origin-to-origin haversine distance, as it appears in the degenerate
evaluations. -/
theorem hav00 : haversineDistance ⟨0, 0⟩ ⟨0, 0⟩ = 0 := haversineDistance_self _

/-- Travel time of a zero leg. -/
theorem estimateTravelTime_zero : estimateTravelTime 0 = 0 := by
  simp [estimateTravelTime]

set_option maxHeartbeats 800000 in
/-- Evaluation of `tryFormPool` on the two-passenger instance: the proposal
is emitted (the route is feasible under the totals-based SUV capacities). -/
theorem tryFormPool_A2B2_eval :
    ((Matcher.tryFormPool [passengerA2, passengerB2] DEFAULT_CONFIG "poolX").map
        (fun r => (r.passengers,
          r.route.waypoints.map (fun w => (w.passenger_id, w.type))))) =
      some (["A", "B"],
        [("A", .pickup), ("A", .dropoff), ("B", .pickup), ("B", .dropoff)]) := by
  have h11 : (1:ℝ) + 1 = 2 := by norm_num
  have h22 : (2:ℝ) + 2 = 4 := by norm_num
  have h24 : (2:ℝ) ≤ 4 := by norm_num
  have hn43 : ¬((4:ℝ) ≤ 3) := by norm_num
  have h26 : (2:ℝ) ≤ 6 := by norm_num
  have h45 : (4:ℝ) ≤ 5 := by norm_num
  have hn61 : ¬((6:ℝ) < 1) := by norm_num
  have hn62 : ¬((6:ℝ) < 2) := by norm_num
  have hn52 : ¬((5:ℝ) < 2) := by norm_num
  have hn54 : ¬((5:ℝ) < 4) := by norm_num
  have hn00 : ¬((0:ℝ) < 0) := by norm_num
  have hn150 : ¬((15:ℝ) < 0) := by norm_num
  have h1m1 : (1:ℝ) - 1 = 0 := by norm_num
  have h2m2 : (2:ℝ) - 2 = 0 := by norm_num
  simp [Matcher.tryFormPool, Matcher.determineVehicleType,
    Matcher.getVehicleCapacity, Matcher.calculateCentroid,
    passengerA2, passengerB2, Passenger.pickupLoc, Passenger.dropoffLoc,
    optimizeRoute, buildWaypoints, greedyRouteConstruction, greedyLoop,
    findBestWaypoint, isValidNextWaypoint, mapGet, mapSet, RoutePoint.loc,
    calculateDetours, calcDetoursAux, detoursRespected,
    twoOptOptimization, twoOptWhile, twoOptSweep, twoOptMiddle, twoOptInner,
    reverseSegment, pathDistance, estimateTravelTime_zero,
    hav00, List.find?, h11, h22, h24, hn43, h26, h45, hn61, hn62, hn52,
    hn54, hn00, hn150, h1m1, h2m2]

/-- C3.  A feasible proposal emitted by the matcher (two passengers, one
seat and two luggage pieces each) is committed by `matchPendingPassengers`
as a pool row with `current_luggage = 4` but `max_luggage = 3`: the
persisted pool violates `currentLuggage ≤ maxLuggage` immediately after a
successful match commit, because the commit re-derives the vehicle class
from the passenger count while the route was planned under the totals-based
class. -/
theorem committedPool_luggage_exceeds_capacity :
    ((Matcher.tryFormPool [passengerA2, passengerB2] DEFAULT_CONFIG "poolX").map
        (fun r =>
          ((RidePooling.poolRowOfResult r [passengerA2, passengerB2]).current_luggage,
            (RidePooling.poolRowOfResult r [passengerA2, passengerB2]).max_luggage))) =
      some (4, 3) ∧
    ¬((4 : ℝ) ≤ 3) := by
  obtain ⟨r, hr, hproj⟩ := Option.map_eq_some'.mp tryFormPool_A2B2_eval
  have hps : r.passengers = ["A", "B"] := (Prod.ext_iff.mp hproj).1
  have hAB : ("A" == "B") = false := rfl
  have hBB : ("B" == "B") = true := rfl
  constructor
  · rw [hr]
    simp only [Option.map_some']
    rw [RidePooling.poolRowOfResult]
    simp only [hps]
    norm_num [RidePooling.determineVehicleType, RidePooling.getVehicleCapacity,
      List.find?, passengerA2, passengerB2, hAB, hBB]
  · norm_num

/-- C4.  The same committed proposal: the matcher's totals-based selection
(`determineVehicleType(totalSeats = 2, totalLuggage = 4)`, the smallest
class dominating the totals as in §4.4.1) yields an SUV, but the pool row
persisted by `matchPendingPassengers` carries vehicle class sedan, derived
from the passenger count alone. -/
theorem committedPool_vehicleClass_not_totals_based :
    ((Matcher.tryFormPool [passengerA2, passengerB2] DEFAULT_CONFIG "poolX").map
        (fun r =>
          (RidePooling.poolRowOfResult r [passengerA2, passengerB2]).vehicle_type)) =
      some VehicleType.sedan ∧
    Matcher.determineVehicleType
        ([passengerA2, passengerB2].foldl (fun sum p => sum + p.seats_required) 0)
        ([passengerA2, passengerB2].foldl (fun sum p => sum + p.luggage_count) 0) =
      some VehicleType.suv ∧
    VehicleType.sedan ≠ VehicleType.suv := by
  refine ⟨?_, ?_, by simp⟩
  · obtain ⟨r, hr, hproj⟩ := Option.map_eq_some'.mp tryFormPool_A2B2_eval
    have hps : r.passengers = ["A", "B"] := (Prod.ext_iff.mp hproj).1
    rw [hr]
    simp only [Option.map_some']
    rw [RidePooling.poolRowOfResult]
    simp only [hps]
    norm_num [RidePooling.determineVehicleType]
  · norm_num [Matcher.determineVehicleType, passengerA2, passengerB2]

/-! ### Greedy tie-breaking (C9) -/

/-- Invariant characterization of the greedy selection scan: relative to the
scan suffix `l` starting at index `n`, a returned selection is either the
incoming accumulator, or the FIRST feasible waypoint of `l` attaining a
distance strictly below the accumulator's and strictly below every earlier
feasible waypoint of `l`; in both cases the selection's distance is a lower
bound on every feasible waypoint of `l`. -/
theorem findBestWaypoint_characterization (constraints : RouteConstraints)
    (pickedUp : List String) (seats lug : ℝ) (cur : Location) :
    ∀ (l : List RoutePoint) (n : ℕ) (acc : Option (ℕ × RoutePoint × ℝ))
      (i : ℕ) (w : RoutePoint) (d : ℝ),
      findBestWaypoint constraints pickedUp seats lug cur l n acc = some (i, w, d) →
      ((acc = some (i, w, d) ∨
        (n ≤ i ∧ l[i - n]? = some w ∧
          isValidNextWaypoint w pickedUp seats lug constraints = true ∧
          d = haversineDistance cur w.loc ∧
          (∀ b : ℕ × RoutePoint × ℝ, acc = some b → d < b.2.2) ∧
          (∀ (k : ℕ) (wk : RoutePoint), k < i - n → l[k]? = some wk →
            isValidNextWaypoint wk pickedUp seats lug constraints = true →
            d < haversineDistance cur wk.loc))) ∧
      (∀ (k : ℕ) (wk : RoutePoint), l[k]? = some wk →
        isValidNextWaypoint wk pickedUp seats lug constraints = true →
        d ≤ haversineDistance cur wk.loc)) := by
  intro l
  induction l with
  | nil =>
    intro n acc i w d h
    simp only [findBestWaypoint] at h
    refine ⟨Or.inl h, ?_⟩
    intro k wk hk
    simp at hk
  | cons w0 rest ih =>
    intro n acc i w d h
    by_cases hval : isValidNextWaypoint w0 pickedUp seats lug constraints = true
    · cases acc with
      | none =>
        simp only [findBestWaypoint, if_pos hval] at h
        obtain ⟨hA, hB⟩ := ih (n + 1) (some (n, w0, haversineDistance cur w0.loc)) i w d h
        constructor
        · refine Or.inr ?_
          rcases hA with h2 | ⟨h1, h2, h3, h4, h5, h6⟩
          · have h3 := Option.some.inj h2
            have hi : n = i := congrArg (fun x => x.1) h3
            have hw : w0 = w := congrArg (fun x => x.2.1) h3
            have hd : haversineDistance cur w0.loc = d := congrArg (fun x => x.2.2) h3
            subst hi
            subst hw
            subst hd
            refine ⟨le_refl n, by simp, hval, rfl, ?_, ?_⟩
            · intro b hb
              cases hb
            · intro k wk hklt hkget hkval
              simp at hklt
          · refine ⟨by omega, ?_, h3, h4, ?_, ?_⟩
            · have hidx : i - n = (i - (n + 1)) + 1 := by omega
              rw [hidx, List.getElem?_cons_succ]
              exact h2
            · intro b hb
              cases hb
            · intro k wk hklt hkget hkval
              cases k with
              | zero =>
                have hwk : w0 = wk := by simpa using hkget
                rw [← hwk]
                exact h5 (n, w0, haversineDistance cur w0.loc) rfl
              | succ kp =>
                rw [List.getElem?_cons_succ] at hkget
                exact h6 kp wk (by omega) hkget hkval
        · intro k wk hkget hkval
          cases k with
          | zero =>
            have hwk : w0 = wk := by simpa using hkget
            rw [← hwk]
            rcases hA with h2 | ⟨h1, h2, h3, h4, h5, h6⟩
            · have h3 := Option.some.inj h2
              have hd : haversineDistance cur w0.loc = d := congrArg (fun x => x.2.2) h3
              rw [← hd]
            · exact le_of_lt (h5 (n, w0, haversineDistance cur w0.loc) rfl)
          | succ kp =>
            rw [List.getElem?_cons_succ] at hkget
            exact hB kp wk hkget hkval
      | some best =>
        simp only [findBestWaypoint, if_pos hval] at h
        by_cases hlt : haversineDistance cur w0.loc < best.2.2
        · rw [if_pos hlt] at h
          obtain ⟨hA, hB⟩ := ih (n + 1) (some (n, w0, haversineDistance cur w0.loc)) i w d h
          constructor
          · refine Or.inr ?_
            rcases hA with h2 | ⟨h1, h2, h3, h4, h5, h6⟩
            · have h3 := Option.some.inj h2
              have hi : n = i := congrArg (fun x => x.1) h3
              have hw : w0 = w := congrArg (fun x => x.2.1) h3
              have hd : haversineDistance cur w0.loc = d := congrArg (fun x => x.2.2) h3
              subst hi
              subst hw
              subst hd
              refine ⟨le_refl n, by simp, hval, rfl, ?_, ?_⟩
              · intro b hb
                have hb2 := Option.some.inj hb
                rw [← hb2]
                exact hlt
              · intro k wk hklt hkget hkval
                simp at hklt
            · have hlt0 : d < haversineDistance cur w0.loc :=
                h5 (n, w0, haversineDistance cur w0.loc) rfl
              refine ⟨by omega, ?_, h3, h4, ?_, ?_⟩
              · have hidx : i - n = (i - (n + 1)) + 1 := by omega
                rw [hidx, List.getElem?_cons_succ]
                exact h2
              · intro b hb
                have hb2 := Option.some.inj hb
                rw [← hb2]
                exact lt_trans hlt0 hlt
              · intro k wk hklt hkget hkval
                cases k with
                | zero =>
                  have hwk : w0 = wk := by simpa using hkget
                  rw [← hwk]
                  exact hlt0
                | succ kp =>
                  rw [List.getElem?_cons_succ] at hkget
                  exact h6 kp wk (by omega) hkget hkval
          · intro k wk hkget hkval
            cases k with
            | zero =>
              have hwk : w0 = wk := by simpa using hkget
              rw [← hwk]
              rcases hA with h2 | ⟨h1, h2, h3, h4, h5, h6⟩
              · have h3 := Option.some.inj h2
                have hd : haversineDistance cur w0.loc = d := congrArg (fun x => x.2.2) h3
                rw [← hd]
              · exact le_of_lt (h5 (n, w0, haversineDistance cur w0.loc) rfl)
            | succ kp =>
              rw [List.getElem?_cons_succ] at hkget
              exact hB kp wk hkget hkval
        · rw [if_neg hlt] at h
          obtain ⟨hA, hB⟩ := ih (n + 1) (some best) i w d h
          have hge : best.2.2 ≤ haversineDistance cur w0.loc := not_lt.mp hlt
          constructor
          · rcases hA with h2 | ⟨h1, h2, h3, h4, h5, h6⟩
            · exact Or.inl h2
            · have hltb : d < best.2.2 := h5 best rfl
              refine Or.inr ⟨by omega, ?_, h3, h4, ?_, ?_⟩
              · have hidx : i - n = (i - (n + 1)) + 1 := by omega
                rw [hidx, List.getElem?_cons_succ]
                exact h2
              · intro b hb
                have hb2 := Option.some.inj hb
                rw [← hb2]
                exact hltb
              · intro k wk hklt hkget hkval
                cases k with
                | zero =>
                  have hwk : w0 = wk := by simpa using hkget
                  rw [← hwk]
                  exact lt_of_lt_of_le hltb hge
                | succ kp =>
                  rw [List.getElem?_cons_succ] at hkget
                  exact h6 kp wk (by omega) hkget hkval
          · intro k wk hkget hkval
            cases k with
            | zero =>
              have hwk : w0 = wk := by simpa using hkget
              rw [← hwk]
              rcases hA with h2 | ⟨h1, h2, h3, h4, h5, h6⟩
              · have h3 := Option.some.inj h2
                have hd : best.2.2 = d := congrArg (fun x => x.2.2) h3
                rw [← hd]
                exact hge
              · exact le_of_lt (lt_of_lt_of_le (h5 best rfl) hge)
            | succ kp =>
              rw [List.getElem?_cons_succ] at hkget
              exact hB kp wk hkget hkval
    · simp only [findBestWaypoint, if_neg hval] at h
      obtain ⟨hA, hB⟩ := ih (n + 1) acc i w d h
      constructor
      · rcases hA with h2 | ⟨h1, h2, h3, h4, h5, h6⟩
        · exact Or.inl h2
        · refine Or.inr ⟨by omega, ?_, h3, h4, h5, ?_⟩
          · have hidx : i - n = (i - (n + 1)) + 1 := by omega
            rw [hidx, List.getElem?_cons_succ]
            exact h2
          · intro k wk hklt hkget hkval
            cases k with
            | zero =>
              have hwk : w0 = wk := by simpa using hkget
              rw [← hwk] at hkval
              exact absurd hkval hval
            | succ kp =>
              rw [List.getElem?_cons_succ] at hkget
              exact h6 kp wk (by omega) hkget hkval
      · intro k wk hkget hkval
        cases k with
        | zero =>
          have hwk : w0 = wk := by simpa using hkget
          rw [← hwk] at hkval
          exact absurd hkval hval
        | succ kp =>
          rw [List.getElem?_cons_succ] at hkget
          exact hB kp wk hkget hkval

/-- C9 (amended).  The greedy construction selects the feasible unvisited
waypoint of least distance, breaking ties by POSITION in the waypoint list
(the first feasible minimiser in insertion order wins); request timestamps
are not consulted, so FIFO preference holds only when the planner's input
list is sorted oldest-first, which the matcher's newest-first pool growing
does not guarantee. -/
theorem greedy_tie_selects_first_in_list_order (constraints : RouteConstraints)
    (pickedUp : List String) (seats lug : ℝ) (cur : Location)
    (l : List RoutePoint) (i : ℕ) (w : RoutePoint) (d : ℝ)
    (h : findBestWaypoint constraints pickedUp seats lug cur l 0 none = some (i, w, d)) :
    l[i]? = some w ∧
    isValidNextWaypoint w pickedUp seats lug constraints = true ∧
    d = haversineDistance cur w.loc ∧
    (∀ (k : ℕ) (wk : RoutePoint), l[k]? = some wk →
      isValidNextWaypoint wk pickedUp seats lug constraints = true →
      d ≤ haversineDistance cur wk.loc) ∧
    (∀ (k : ℕ) (wk : RoutePoint), k < i → l[k]? = some wk →
      isValidNextWaypoint wk pickedUp seats lug constraints = true →
      d < haversineDistance cur wk.loc) := by
  obtain ⟨hA, hB⟩ := findBestWaypoint_characterization constraints pickedUp seats lug
    cur l 0 none i w d h
  rcases hA with h2 | ⟨h1, h2, h3, h4, h5, h6⟩
  · cases h2
  · refine ⟨by simpa using h2, h3, h4, hB, ?_⟩
    intro k wk hk hget hval
    exact h6 k wk (by omega) hget hval

/-- A trivial constraint set for the tie-break witness. -/
noncomputable def constraintsW9 : RouteConstraints := ⟨4, 3, []⟩

/-- A dropoff waypoint whose passenger is on board, for the witness. -/
noncomputable def dropoffW9 : RoutePoint := ⟨0, 0, "B", .dropoff, none⟩

/-- Witness for `greedy_tie_selects_first_in_list_order` on a one-waypoint
scan. -/
theorem greedy_tie_selects_first_in_list_order_witness :
    ([dropoffW9] : List RoutePoint)[0]? = some dropoffW9 ∧
    isValidNextWaypoint dropoffW9 ["B"] 0 0 constraintsW9 = true := by
  have h := greedy_tie_selects_first_in_list_order constraintsW9 ["B"] 0 0 ⟨0, 0⟩
    [dropoffW9] 0 dropoffW9 (haversineDistance ⟨0, 0⟩ dropoffW9.loc) rfl
  exact ⟨h.1, h.2.1⟩

/-- Passenger "P1" of the tie-break scenario: at the origin, one seat, no
luggage, requested at time 1. -/
noncomputable def passengerP1 : Passenger :=
  { id := "P1", user_id := "u1", pickup_lat := 0, pickup_lng := 0,
    dropoff_lat := 0, dropoff_lng := 0, luggage_count := 0, seats_required := 1,
    max_detour_minutes := 15, detour_tolerance := 1.5,
    status := .pending, pool_id := none, requested_at := 1,
    base_price := some 100, final_price := none, surge_multiplier := 1,
    cancelled_at := none, cancellation_reason := none }

/-- Passenger "P2", requested at time 2. -/
noncomputable def passengerP2 : Passenger :=
  { passengerP1 with id := "P2", user_id := "u2", requested_at := 2 }

/-- Passenger "P3", requested at time 3. -/
noncomputable def passengerP3 : Passenger :=
  { passengerP1 with id := "P3", user_id := "u3", requested_at := 3 }

/-- Passenger "P4", requested at time 4. -/
noncomputable def passengerP4 : Passenger :=
  { passengerP1 with id := "P4", user_id := "u4", requested_at := 4 }

/-- Passenger "P5", requested at time 5. -/
noncomputable def passengerP5 : Passenger :=
  { passengerP1 with id := "P5", user_id := "u5", requested_at := 5 }

/-- The constraint set of the tie-break scenario (sedan capacities, one
seat and no luggage per passenger, zero direct legs). -/
noncomputable def constraints9 : RouteConstraints :=
  ⟨4, 3, [("P1", ⟨15, 0, 0, 1, 0⟩), ("P5", ⟨15, 0, 0, 1, 0⟩),
          ("P4", ⟨15, 0, 0, 1, 0⟩), ("P3", ⟨15, 0, 0, 1, 0⟩)]⟩

/-- The pickup waypoint of "P5". -/
noncomputable def wp5p : RoutePoint := ⟨0, 0, "P5", .pickup, some 15⟩

/-- The dropoff waypoint of "P5". -/
noncomputable def wp5d : RoutePoint := ⟨0, 0, "P5", .dropoff, some 15⟩

/-- The pickup waypoint of "P4". -/
noncomputable def wp4p : RoutePoint := ⟨0, 0, "P4", .pickup, some 15⟩

/-- The dropoff waypoint of "P4". -/
noncomputable def wp4d : RoutePoint := ⟨0, 0, "P4", .dropoff, some 15⟩

/-- The pickup waypoint of "P3". -/
noncomputable def wp3p : RoutePoint := ⟨0, 0, "P3", .pickup, some 15⟩

/-- The dropoff waypoint of "P3". -/
noncomputable def wp3d : RoutePoint := ⟨0, 0, "P3", .dropoff, some 15⟩

/-- C9 (counterexample).  Five co-located passengers requested in order
P1…P5 form one cluster; the matcher's pool growing admits newest-first, so
the planner receives [P1, P5, P4, P3].  In the greedy construction state
after serving P1, the pickups of P5, P4 and P3 are all feasible at the same
(zero) distance — yet the selection is P5's pickup, the passenger with the
LARGEST request timestamp among the tied candidates; accordingly the
planned route serves P5 before P4 and P3.  This refutes the claim that
distance ties are broken toward the smaller request timestamp. -/
theorem greedy_tie_ignores_request_time :
    (Matcher.admitLoop DEFAULT_CONFIG
        ([passengerP2, passengerP3, passengerP4, passengerP5].reverse)
        [passengerP1]).1 =
      [passengerP1, passengerP5, passengerP4, passengerP3] ∧
    ((Matcher.tryFormPool [passengerP1, passengerP5, passengerP4, passengerP3]
        DEFAULT_CONFIG "p9").map
      (fun r => r.route.waypoints.map (fun w => w.passenger_id))) =
      some ["P1", "P1", "P5", "P5", "P4", "P4", "P3", "P3"] ∧
    findBestWaypoint constraints9 [] 0 0 ⟨0, 0⟩
        [wp5p, wp5d, wp4p, wp4d, wp3p, wp3d] 0 none = some (0, wp5p, 0) ∧
    isValidNextWaypoint wp4p [] 0 0 constraints9 = true ∧
    isValidNextWaypoint wp3p [] 0 0 constraints9 = true ∧
    haversineDistance ⟨0, 0⟩ wp4p.loc = haversineDistance ⟨0, 0⟩ wp5p.loc ∧
    haversineDistance ⟨0, 0⟩ wp3p.loc = haversineDistance ⟨0, 0⟩ wp5p.loc ∧
    wp5p.passenger_id = passengerP5.id ∧
    passengerP3.requested_at < passengerP5.requested_at ∧
    passengerP4.requested_at < passengerP5.requested_at := by
  have h11 : (1:ℝ) + 1 = 2 := by norm_num
  have h21 : (2:ℝ) + 1 = 3 := by norm_num
  have h31 : (3:ℝ) + 1 = 4 := by norm_num
  have h44 : (4:ℝ) ≤ 4 := by norm_num
  have h03 : (0:ℝ) ≤ 3 := by norm_num
  have hn41 : ¬((4:ℝ) < 1) := by norm_num
  have hn42 : ¬((4:ℝ) < 2) := by norm_num
  have hn30 : ¬((3:ℝ) < 0) := by norm_num
  have hn00 : ¬((0:ℝ) < 0) := by norm_num
  have hn150 : ¬((15:ℝ) < 0) := by norm_num
  have h1m1 : (1:ℝ) - 1 = 0 := by norm_num
  have hn62 : ¬((6:ℝ) < 2) := by norm_num
  have hn63 : ¬((6:ℝ) < 3) := by norm_num
  have hn64 : ¬((6:ℝ) < 4) := by norm_num
  have hn80 : ¬((8:ℝ) < 0) := by norm_num
  have hb : calculateBearing ⟨0, 0⟩ ⟨0, 0⟩ = 0 := by
    simp [calculateBearing, toRadians, atan2_zero_zero, jsMod, jsTrunc]
  have hsim : ∀ t : ℝ, 0 ≤ t →
      isSimilarDirection ⟨0, 0⟩ ⟨0, 0⟩ ⟨0, 0⟩ ⟨0, 0⟩ t = true := by
    intro t ht
    simp [isSimilarDirection, hb]
    norm_num
    linarith
  refine ⟨?_, ?_, ?_, ?_, ?_, ?_, ?_, rfl, by norm_num [passengerP3, passengerP5, passengerP1],
    by norm_num [passengerP4, passengerP5, passengerP1]⟩
  · simp [Matcher.admitLoop, Matcher.isCompatible, DEFAULT_CONFIG,
      passengerP1, passengerP2, passengerP3, passengerP4, passengerP5,
      Passenger.pickupLoc, Passenger.dropoffLoc, hsim 45 (by norm_num),
      h11, h21, h31, hn62, hn63, hn64, hn80]
  · simp [Matcher.tryFormPool, Matcher.determineVehicleType,
      Matcher.getVehicleCapacity, Matcher.calculateCentroid,
      passengerP1, passengerP3, passengerP4, passengerP5,
      Passenger.pickupLoc, Passenger.dropoffLoc,
      optimizeRoute, buildWaypoints, greedyRouteConstruction, greedyLoop,
      findBestWaypoint, isValidNextWaypoint, mapGet, mapSet, RoutePoint.loc,
      calculateDetours, calcDetoursAux, detoursRespected,
      twoOptOptimization, twoOptWhile, twoOptSweep, twoOptMiddle, twoOptInner,
      reverseSegment, pathDistance, estimateTravelTime_zero,
      hav00, List.find?, h11, h21, h31, h44, h03, hn41, hn42, hn30, hn00,
      hn150, h1m1]
  · simp [findBestWaypoint, isValidNextWaypoint, constraints9, mapGet,
      wp5p, wp5d, wp4p, wp4d, wp3p, wp3d, RoutePoint.loc,
      List.find?, hav00, hn41, hn30, hn00]
  · simp [isValidNextWaypoint, constraints9, mapGet, wp4p, List.find?, hn41, hn30]
  · simp [isValidNextWaypoint, constraints9, mapGet, wp3p, List.find?, hn41, hn30]
  · simp [wp4p, wp5p, RoutePoint.loc]
  · simp [wp3p, wp5p, RoutePoint.loc]

/-! ### 2-opt can adopt a dropoff-before-pickup ordering (C1)

Two passengers on the equator: "A" rides longitude 0 → 10, "B" rides
longitude 4 → 2.  Greedy construction from the origin yields
[A-pickup, B-pickup, B-dropoff, A-dropoff] (14 kmPerDeg of route), but
reversing the middle segment yields [A-pickup, B-DROPOFF, B-pickup,
A-dropoff] at only 10 kmPerDeg.  `calculateDetours` treats the missing
pickup time of the early dropoff as 0 (`pickupTimes.get(id) || 0`) and
computes ordinary finite detours, so the detour check accepts the
candidate and 2-opt adopts it: the planner returns a route in which B's
dropoff precedes B's pickup. -/

/-- Passenger "A" of the C1 scenario: equator longitudes 0 → 10. -/
noncomputable def passengerC1A : Passenger where
  id := "A"
  user_id := "uA"
  pickup_lat := 0
  pickup_lng := 0
  dropoff_lat := 0
  dropoff_lng := 10
  luggage_count := 0
  seats_required := 1
  max_detour_minutes := 1000000
  detour_tolerance := 1.5
  status := .pending
  pool_id := none
  requested_at := 1
  base_price := some 100
  final_price := none
  surge_multiplier := 1
  cancelled_at := none
  cancellation_reason := none

/-- Passenger "B" of the C1 scenario: equator longitudes 4 → 2. -/
noncomputable def passengerC1B : Passenger where
  id := "B"
  user_id := "uB"
  pickup_lat := 0
  pickup_lng := 4
  dropoff_lat := 0
  dropoff_lng := 2
  luggage_count := 0
  seats_required := 1
  max_detour_minutes := 1000000
  detour_tolerance := 1.5
  status := .pending
  pool_id := none
  requested_at := 2
  base_price := some 100
  final_price := none
  surge_multiplier := 1
  cancelled_at := none
  cancellation_reason := none

/-- The C1 constraints: sedan capacities, one seat and no luggage per
passenger, honest direct distances/times along the equator, and a detour
budget large enough that every finite detour passes. -/
noncomputable def constraintsC1 : RouteConstraints :=
  ⟨4, 3, [("A", ⟨1000000, kmPerDeg * 10, kmPerDeg * 20, 1, 0⟩),
          ("B", ⟨1000000, kmPerDeg * 2, kmPerDeg * 4, 1, 0⟩)]⟩

/-- The four waypoints `buildWaypoints` produces for the C1 passengers. -/
noncomputable def wC1Ap : RoutePoint := ⟨0, 0, "A", .pickup, some 1000000⟩

/-- A's dropoff waypoint in the C1 scenario. -/
noncomputable def wC1Ad : RoutePoint := ⟨0, 10, "A", .dropoff, some 1000000⟩

/-- B's pickup waypoint in the C1 scenario. -/
noncomputable def wC1Bp : RoutePoint := ⟨0, 4, "B", .pickup, some 1000000⟩

/-- B's dropoff waypoint in the C1 scenario. -/
noncomputable def wC1Bd : RoutePoint := ⟨0, 2, "B", .dropoff, some 1000000⟩

/-- The greedy-stage route of the C1 scenario (pickup/dropoff correctly
nested), as produced by `greedyRouteConstruction`. -/
noncomputable def c1Best0 : OptimizedRoute :=
  ⟨[wC1Ap, wC1Bp, wC1Bd, wC1Ad], kmPerDeg * 14, kmPerDeg * 28,
    [("B", 0), ("A", kmPerDeg * 8)]⟩

/-- The route 2-opt adopts in the C1 scenario: B's dropoff precedes B's
pickup. -/
noncomputable def c1Best1 : OptimizedRoute :=
  ⟨[wC1Ap, wC1Bd, wC1Bp, wC1Ad], kmPerDeg * 10, kmPerDeg * 20,
    [("B", 0), ("A", 0)]⟩

lemma c1_buildWaypoints :
    buildWaypoints [passengerC1A, passengerC1B] = [wC1Ap, wC1Ad, wC1Bp, wC1Bd] := rfl

lemma c1_d04 : haversineDistance ⟨0, 0⟩ ⟨0, 4⟩ = kmPerDeg * 4 := by
  rw [haversineDistance_equator 0 4 (by norm_num) (by norm_num)]
  norm_num

lemma c1_d010 : haversineDistance ⟨0, 0⟩ ⟨0, 10⟩ = kmPerDeg * 10 := by
  rw [haversineDistance_equator 0 10 (by norm_num) (by norm_num)]
  norm_num

lemma c1_d02 : haversineDistance ⟨0, 0⟩ ⟨0, 2⟩ = kmPerDeg * 2 := by
  rw [haversineDistance_equator 0 2 (by norm_num) (by norm_num)]
  norm_num

lemma c1_d42 : haversineDistance ⟨0, 4⟩ ⟨0, 2⟩ = kmPerDeg * 2 := by
  rw [haversineDistance_symm, haversineDistance_equator 2 4 (by norm_num) (by norm_num)]
  norm_num

lemma c1_d24 : haversineDistance ⟨0, 2⟩ ⟨0, 4⟩ = kmPerDeg * 2 := by
  rw [haversineDistance_equator 2 4 (by norm_num) (by norm_num)]
  norm_num

lemma c1_d410 : haversineDistance ⟨0, 4⟩ ⟨0, 10⟩ = kmPerDeg * 6 := by
  rw [haversineDistance_equator 4 10 (by norm_num) (by norm_num)]
  norm_num

lemma c1_d210 : haversineDistance ⟨0, 2⟩ ⟨0, 10⟩ = kmPerDeg * 8 := by
  rw [haversineDistance_equator 2 10 (by norm_num) (by norm_num)]
  norm_num

lemma c1_d104 : haversineDistance ⟨0, 10⟩ ⟨0, 4⟩ = kmPerDeg * 6 := by
  rw [haversineDistance_symm, haversineDistance_equator 4 10 (by norm_num) (by norm_num)]
  norm_num

lemma c1_e2 : estimateTravelTime (kmPerDeg * 4) = kmPerDeg * 8 := by
  simp [estimateTravelTime]
  ring

lemma c1_e3 : estimateTravelTime (kmPerDeg * 2) = kmPerDeg * 4 := by
  simp [estimateTravelTime]
  ring

lemma c1_e4 : estimateTravelTime (kmPerDeg * 8) = kmPerDeg * 16 := by
  simp [estimateTravelTime]
  ring

lemma c1_e5 : estimateTravelTime (kmPerDeg * 6) = kmPerDeg * 12 := by
  simp [estimateTravelTime]
  ring

lemma c1_e6 : estimateTravelTime (kmPerDeg * 10) = kmPerDeg * 20 := by
  simp [estimateTravelTime]
  ring

lemma c1_not_lt_4_0 : ¬(kmPerDeg * 4 < 0) := by nlinarith [kmPerDeg_pos]

lemma c1_lt_4_10 : kmPerDeg * 4 < kmPerDeg * 10 := by nlinarith [kmPerDeg_pos]

lemma c1_lt_2_6 : kmPerDeg * 2 < kmPerDeg * 6 := by nlinarith [kmPerDeg_pos]

lemma c1_lt_10_14 : kmPerDeg * 10 < kmPerDeg * 14 := by nlinarith [kmPerDeg_pos]

lemma c1_not_18_10 : ¬(kmPerDeg * 18 < kmPerDeg * 10) := by nlinarith [kmPerDeg_pos]

lemma c1_not_16_10 : ¬(kmPerDeg * 16 < kmPerDeg * 10) := by nlinarith [kmPerDeg_pos]

lemma c1_not_14_10 : ¬(kmPerDeg * 14 < kmPerDeg * 10) := by nlinarith [kmPerDeg_pos]

lemma c1_not_budget8 : ¬((1000000 : ℝ) < kmPerDeg * 8) := by
  nlinarith [kmPerDeg_pos, kmPerDeg_lt_150]

lemma c1_not_budget0 : ¬((1000000 : ℝ) < 0) := by norm_num

/-- Greedy construction on the C1 instance visits A-pickup, B-pickup,
B-dropoff, A-dropoff, accumulating 14·kmPerDeg of distance and
28·kmPerDeg minutes. -/
lemma c1_greedyLoop :
    greedyLoop constraintsC1 4 [wC1Ap, wC1Ad, wC1Bp, wC1Bd] ⟨0, 0⟩ [] 0 0 0 0 [] =
      some ([wC1Ap, wC1Bp, wC1Bd, wC1Ad], kmPerDeg * 14, kmPerDeg * 28) := by
  have hAB : ("A" == "B") = false := rfl
  have hBA : ("B" == "A") = false := rfl
  have hAA : ("A" == "A") = true := rfl
  have hBB : ("B" == "B") = true := rfl
  have F10 : kmPerDeg * 4 + kmPerDeg * 2 = kmPerDeg * 6 := by ring
  have F11 : kmPerDeg * 6 + kmPerDeg * 8 = kmPerDeg * 14 := by ring
  have F12 : kmPerDeg * 8 + kmPerDeg * 4 = kmPerDeg * 12 := by ring
  have F13 : kmPerDeg * 12 + kmPerDeg * 16 = kmPerDeg * 28 := by ring
  have S1 : (1 : ℝ) + 1 = 2 := by norm_num
  have S2 : (2 : ℝ) - 1 = 1 := by norm_num
  have S3 : (1 : ℝ) - 1 = 0 := by norm_num
  have G1 : ¬((4 : ℝ) < 1) := by norm_num
  have G2 : ¬((4 : ℝ) < 2) := by norm_num
  have G3 : ¬((3 : ℝ) < 0) := by norm_num
  simp [greedyLoop, findBestWaypoint, isValidNextWaypoint, mapGet, RoutePoint.loc,
    constraintsC1, wC1Ap, wC1Ad, wC1Bp, wC1Bd, List.find?, List.eraseIdx, List.erase,
    hav00, c1_d04, c1_d010, c1_d42, c1_d410, c1_d210,
    estimateTravelTime_zero, c1_e2, c1_e3, c1_e4,
    c1_not_lt_4_0, c1_lt_4_10, c1_lt_2_6,
    hAB, hBA, hAA, hBB, F10, F11, F12, F13, S1, S2, S3, G1, G2, G3]

lemma c1_dg_step1 (rest : List RoutePoint) :
    calcDetoursAux constraintsC1 (wC1Ap :: rest) none 0 [] [] =
      calcDetoursAux constraintsC1 rest (some wC1Ap) 0 [("A", 0)] [] := by
  simp [calcDetoursAux, mapSet, List.find?, wC1Ap]

lemma c1_dg_step2 (rest : List RoutePoint) :
    calcDetoursAux constraintsC1 (wC1Bp :: rest) (some wC1Ap) 0 [("A", 0)] [] =
      calcDetoursAux constraintsC1 rest (some wC1Bp) (kmPerDeg * 8)
        [("A", 0), ("B", kmPerDeg * 8)] [] := by
  have hAB : ("A" == "B") = false := rfl
  simp [calcDetoursAux, mapSet, RoutePoint.loc, List.find?, wC1Ap, wC1Bp,
    c1_d04, c1_e2, hAB]

lemma c1_dg_step3 (rest : List RoutePoint) :
    calcDetoursAux constraintsC1 (wC1Bd :: rest) (some wC1Bp) (kmPerDeg * 8)
      [("A", 0), ("B", kmPerDeg * 8)] [] =
      calcDetoursAux constraintsC1 rest (some wC1Bd) (kmPerDeg * 12)
        [("A", 0), ("B", kmPerDeg * 8)] [("B", 0)] := by
  have hAB : ("A" == "B") = false := rfl
  have hBB : ("B" == "B") = true := rfl
  have F12 : kmPerDeg * 8 + kmPerDeg * 4 = kmPerDeg * 12 := by ring
  have F14 : kmPerDeg * 12 - kmPerDeg * 8 = kmPerDeg * 4 := by ring
  have F15 : kmPerDeg * 4 - kmPerDeg * 4 = 0 := by ring
  simp [calcDetoursAux, mapGet, mapSet, RoutePoint.loc, List.find?,
    constraintsC1, wC1Bp, wC1Bd, c1_d42, c1_e3, hAB, hBB, F12, F14, F15]

lemma c1_dg_step4 (rest : List RoutePoint) :
    calcDetoursAux constraintsC1 (wC1Ad :: rest) (some wC1Bd) (kmPerDeg * 12)
      [("A", 0), ("B", kmPerDeg * 8)] [("B", 0)] =
      calcDetoursAux constraintsC1 rest (some wC1Ad) (kmPerDeg * 28)
        [("A", 0), ("B", kmPerDeg * 8)] [("B", 0), ("A", kmPerDeg * 8)] := by
  have hAA : ("A" == "A") = true := rfl
  have hBA : ("B" == "A") = false := rfl
  have F13 : kmPerDeg * 12 + kmPerDeg * 16 = kmPerDeg * 28 := by ring
  have F16 : kmPerDeg * 28 - kmPerDeg * 20 = kmPerDeg * 8 := by ring
  simp [calcDetoursAux, mapGet, mapSet, RoutePoint.loc, List.find?,
    constraintsC1, wC1Bd, wC1Ad, c1_d210, c1_e4, hAA, hBA, F13, F16]

/-- Detours of the greedy C1 route: 0 for B, 8·kmPerDeg for A. -/
lemma c1_detours_greedy :
    calculateDetours [wC1Ap, wC1Bp, wC1Bd, wC1Ad] constraintsC1 =
      [("B", 0), ("A", kmPerDeg * 8)] := by
  unfold calculateDetours
  rw [c1_dg_step1, c1_dg_step2, c1_dg_step3, c1_dg_step4]
  rfl

lemma c1_dc_step1 (rest : List RoutePoint) :
    calcDetoursAux constraintsC1 (wC1Bd :: rest) (some wC1Ap) 0 [("A", 0)] [] =
      calcDetoursAux constraintsC1 rest (some wC1Bd) (kmPerDeg * 4) [("A", 0)]
        [("B", 0)] := by
  have hAB : ("A" == "B") = false := rfl
  have F15 : kmPerDeg * 4 - kmPerDeg * 4 = 0 := by ring
  simp [calcDetoursAux, mapGet, mapSet, RoutePoint.loc, List.find?,
    constraintsC1, wC1Ap, wC1Bd, c1_d02, c1_e3, hAB, F15]

lemma c1_dc_step2 (rest : List RoutePoint) :
    calcDetoursAux constraintsC1 (wC1Bp :: rest) (some wC1Bd) (kmPerDeg * 4) [("A", 0)]
      [("B", 0)] =
      calcDetoursAux constraintsC1 rest (some wC1Bp) (kmPerDeg * 8)
        [("A", 0), ("B", kmPerDeg * 8)] [("B", 0)] := by
  have hAB : ("A" == "B") = false := rfl
  have F24 : kmPerDeg * 4 + kmPerDeg * 4 = kmPerDeg * 8 := by ring
  simp [calcDetoursAux, mapSet, RoutePoint.loc, List.find?,
    wC1Bd, wC1Bp, c1_d24, c1_e3, hAB, F24]

lemma c1_dc_step3 (rest : List RoutePoint) :
    calcDetoursAux constraintsC1 (wC1Ad :: rest) (some wC1Bp) (kmPerDeg * 8)
      [("A", 0), ("B", kmPerDeg * 8)] [("B", 0)] =
      calcDetoursAux constraintsC1 rest (some wC1Ad) (kmPerDeg * 20)
        [("A", 0), ("B", kmPerDeg * 8)] [("B", 0), ("A", 0)] := by
  have hAA : ("A" == "A") = true := rfl
  have hBA : ("B" == "A") = false := rfl
  have F25 : kmPerDeg * 8 + kmPerDeg * 12 = kmPerDeg * 20 := by ring
  have F26 : kmPerDeg * 20 - kmPerDeg * 20 = 0 := by ring
  simp [calcDetoursAux, mapGet, mapSet, RoutePoint.loc, List.find?,
    constraintsC1, wC1Bp, wC1Ad, c1_d410, c1_e5, hAA, hBA, F25, F26]

/-- Detours of the adopted (invalid) C1 route: both 0, because the orphaned
dropoff of B is measured from a default pickup time of 0. -/
lemma c1_detours_cand :
    calculateDetours [wC1Ap, wC1Bd, wC1Bp, wC1Ad] constraintsC1 =
      [("B", 0), ("A", 0)] := by
  unfold calculateDetours
  rw [c1_dg_step1, c1_dc_step1, c1_dc_step2, c1_dc_step3]
  rfl

/-- The greedy route's detours pass the final check of
`greedyRouteConstruction`. -/
lemma c1_detoursOK_greedy :
    detoursRespected [("B", 0), ("A", kmPerDeg * 8)] constraintsC1 = true := by
  have hAB : ("A" == "B") = false := rfl
  have hBA : ("B" == "A") = false := rfl
  have hAA : ("A" == "A") = true := rfl
  have hBB : ("B" == "B") = true := rfl
  simp [detoursRespected, mapGet, constraintsC1, List.find?,
    hAB, hBA, hAA, hBB, c1_not_budget8, c1_not_budget0]

/-- The greedy stage of the C1 instance succeeds with `c1Best0`. -/
lemma c1_greedy :
    greedyRouteConstruction [wC1Ap, wC1Ad, wC1Bp, wC1Bd] ⟨0, 0⟩ constraintsC1 =
      some c1Best0 := by
  simp [greedyRouteConstruction, c1_greedyLoop, c1_detours_greedy,
    c1_detoursOK_greedy, c1Best0]

lemma c1_rs1 :
    reverseSegment [wC1Ap, wC1Bp, wC1Bd, wC1Ad] 0 2 = [wC1Ap, wC1Bd, wC1Bp, wC1Ad] := rfl

lemma c1_rs2 :
    reverseSegment [wC1Ap, wC1Bd, wC1Bp, wC1Ad] 0 3 = [wC1Ap, wC1Ad, wC1Bp, wC1Bd] := rfl

lemma c1_rs3 :
    reverseSegment [wC1Ap, wC1Bd, wC1Bp, wC1Ad] 1 3 = [wC1Ap, wC1Bd, wC1Ad, wC1Bp] := rfl

lemma c1_rs4 :
    reverseSegment [wC1Ap, wC1Bd, wC1Bp, wC1Ad] 0 2 = [wC1Ap, wC1Bp, wC1Bd, wC1Ad] := rfl

lemma c1_path_cand1 : pathDistance [wC1Ap, wC1Bd, wC1Bp, wC1Ad] = kmPerDeg * 10 := by
  have F17 : kmPerDeg * 2 + kmPerDeg * 6 = kmPerDeg * 8 := by ring
  have F18 : kmPerDeg * 2 + kmPerDeg * 8 = kmPerDeg * 10 := by ring
  simp [pathDistance, RoutePoint.loc, wC1Ap, wC1Ad, wC1Bp, wC1Bd,
    c1_d02, c1_d24, c1_d410, F17, F18]

lemma c1_path_cand2 : pathDistance [wC1Ap, wC1Ad, wC1Bp, wC1Bd] = kmPerDeg * 18 := by
  have F19 : kmPerDeg * 6 + kmPerDeg * 2 = kmPerDeg * 8 := by ring
  have F20 : kmPerDeg * 10 + kmPerDeg * 8 = kmPerDeg * 18 := by ring
  simp [pathDistance, RoutePoint.loc, wC1Ap, wC1Ad, wC1Bp, wC1Bd,
    c1_d010, c1_d104, c1_d42, F19, F20]

lemma c1_path_cand3 : pathDistance [wC1Ap, wC1Bd, wC1Ad, wC1Bp] = kmPerDeg * 16 := by
  have F21 : kmPerDeg * 8 + kmPerDeg * 6 = kmPerDeg * 14 := by ring
  have F22 : kmPerDeg * 2 + kmPerDeg * 14 = kmPerDeg * 16 := by ring
  simp [pathDistance, RoutePoint.loc, wC1Ap, wC1Ad, wC1Bp, wC1Bd,
    c1_d02, c1_d210, c1_d104, F21, F22]

lemma c1_path_cand4 : pathDistance [wC1Ap, wC1Bp, wC1Bd, wC1Ad] = kmPerDeg * 14 := by
  have F18 : kmPerDeg * 2 + kmPerDeg * 8 = kmPerDeg * 10 := by ring
  have F23 : kmPerDeg * 4 + kmPerDeg * 10 = kmPerDeg * 14 := by ring
  simp [pathDistance, RoutePoint.loc, wC1Ap, wC1Ad, wC1Bp, wC1Bd,
    c1_d04, c1_d42, c1_d210, F18, F23]

lemma c1_detoursOK : detoursRespected [("B", 0), ("A", 0)] constraintsC1 = true := by
  have hAB : ("A" == "B") = false := rfl
  have hBA : ("B" == "A") = false := rfl
  have hAA : ("A" == "A") = true := rfl
  have hBB : ("B" == "B") = true := rfl
  simp [detoursRespected, mapGet, constraintsC1, List.find?,
    hAB, hBA, hAA, hBB, c1_not_budget0]

/-- The first 2-opt sweep on the C1 instance adopts the
dropoff-before-pickup candidate. -/
lemma c1_sweep1 : twoOptSweep constraintsC1 c1Best0 = (c1Best1, true) := by
  simp [twoOptSweep, twoOptMiddle, twoOptInner, c1Best0, c1Best1,
    c1_rs1, c1_rs2, c1_rs3, c1_path_cand1, c1_path_cand2, c1_path_cand3,
    c1_detours_cand, c1_detoursOK, c1_e6,
    c1_lt_10_14, c1_not_18_10, c1_not_16_10]

/-- The second 2-opt sweep makes no further improvement. -/
lemma c1_sweep2 : twoOptSweep constraintsC1 c1Best1 = (c1Best1, false) := by
  simp [twoOptSweep, twoOptMiddle, twoOptInner, c1Best1,
    c1_rs4, c1_rs2, c1_rs3, c1_path_cand4, c1_path_cand2, c1_path_cand3,
    c1_not_14_10, c1_not_18_10, c1_not_16_10]

/-- C1.  On the concrete two-passenger instance the route planner returns
the waypoint sequence A-pickup, B-dropoff, B-pickup, A-dropoff: passenger
B's dropoff strictly precedes its pickup in the returned route, because the
2-opt detour check assigned the orphaned dropoff a pickup time of 0 instead
of rejecting the candidate. -/
theorem optimizeRoute_returns_dropoff_before_pickup :
    ((optimizeRoute [passengerC1A, passengerC1B] ⟨0, 0⟩ constraintsC1).map
        (fun r => r.waypoints.map (fun w => (w.passenger_id, w.type)))) =
      some [("A", WaypointType.pickup), ("B", WaypointType.dropoff),
        ("B", WaypointType.pickup), ("A", WaypointType.dropoff)] := by
  have h2 : twoOptOptimization c1Best0 constraintsC1 = c1Best1 := by
    simp [twoOptOptimization, twoOptWhile, c1_sweep1, c1_sweep2]
  unfold optimizeRoute
  rw [c1_buildWaypoints, c1_greedy]
  simp [h2, c1Best1, wC1Ap, wC1Ad, wC1Bp, wC1Bd]

end RidePool
